import Mathlib

/-!
Shallow embedding of the rural micro-lending intelligence repository
(data generators, banking API, and scraping agents), together with
theorems settling the specification claims about it.

Conventions:
  * pandas columns of a single borrower row become record fields;
  * `(cond).astype(int) * w` becomes `ind cond * w` over `ℚ`;
  * `np.clip` becomes `npClip`;
  * network calls (`requests.get` etc.) are modelled as `Except String`
    valued inputs: `.error e` stands for the call raising exception `e`.
-/

/-- Embedding of `(cond).astype(int)` : the 0/1 indicator of a condition. -/
def ind (p : Prop) [Decidable p] : ℚ := if p then 1 else 0

/-- Embedding of `np.clip x lo hi`. -/
def npClip (x lo hi : ℚ) : ℚ := min hi (max lo x)

namespace CompGen

/-- One borrower row of `comprehensive_excel_generator.generate_borrower_dataset`
(restricted to the columns read by `calculate_comprehensive_risk_scores`). -/
structure Borrower where
  age : ℤ
  education_level : String
  family_size : ℤ
  years_in_location : ℤ
  monthly_income : ℚ
  requested_loan_amount : ℚ
  monthly_expenses : ℚ
  has_bank_account : Bool
  existing_loans : ℤ
  previous_defaults : ℤ
  savings_amount : ℚ
  credit_score : Option ℚ
  owns_house : Bool
  house_type : String
  owns_land : Bool
  owns_vehicle : Bool
  collateral_offered : Bool
  collateral_value : ℚ
  guarantor_available : Bool
  shg_member : Bool
  mobile_ownership : Bool
  aadhaar_linked : Bool
  seasonal_migration : Bool
  financial_literacy_score : ℤ
  community_reputation : String
  local_leader_recommendation : Bool
  electricity_connection : Bool
  water_source : String
  toilet_facility : Bool
  road_connectivity : String
  internet_usage : Bool
  market_access_score : ℤ
  pan_card : Bool
  insurance_life : Bool
  insurance_health : Bool
  credit_history_length : ℤ
  voter_id : Bool

/-- Embedding of `demo_risk` of `calculate_comprehensive_risk_scores` (comprehensive generator). -/
def demo_risk (b : Borrower) : ℚ :=
  ind (b.age > 60) * 12 +
  ind (b.age < 25) * 8 +
  ind (b.education_level = "Illiterate") * 20 +
  ind (b.family_size > 7) * 10 +
  ind (b.years_in_location < 3) * 12

/-- Embedding of `financial_risk` of `calculate_comprehensive_risk_scores`; the two ratios are
inlined (`income_loan_ratio = monthly_income / requested_loan_amount * 1000`,
`expense_ratio = monthly_expenses / monthly_income`). -/
def financial_risk (b : Borrower) : ℚ :=
  ind (b.monthly_income / b.requested_loan_amount * 1000 < 6) * 25 +
  ind (b.monthly_expenses / b.monthly_income > 0.85) * 20 +
  ind (¬ b.has_bank_account) * 15 +
  ind (b.existing_loans > 2) * 20 +
  ind (b.previous_defaults > 0) * 35 +
  ind (b.savings_amount < b.monthly_income) * 10 +
  ind (b.credit_score.getD 0 < 600 ∧ b.credit_score.isSome) * 15

/-- Embedding of `asset_risk` of `calculate_comprehensive_risk_scores`. -/
def asset_risk (b : Borrower) : ℚ :=
  ind (¬ b.owns_house) * 12 +
  ind (b.house_type = "Kutcha") * 8 +
  ind (¬ b.owns_land) * 15 +
  ind (¬ b.owns_vehicle) * 8 +
  ind (¬ b.collateral_offered) * 18 +
  ind (b.collateral_value < b.requested_loan_amount) * 15 +
  ind (¬ b.guarantor_available) * 10

/-- Embedding of `social_risk` of `calculate_comprehensive_risk_scores`. -/
def social_risk (b : Borrower) : ℚ :=
  ind (¬ b.shg_member) * 15 +
  ind (¬ b.mobile_ownership) * 12 +
  ind (¬ b.aadhaar_linked) * 10 +
  ind b.seasonal_migration * 18 +
  ind (b.financial_literacy_score < 5) * 12 +
  ind (b.community_reputation = "Poor") * 20 +
  ind (¬ b.local_leader_recommendation) * 8

/-- Embedding of `infrastructure_risk` of `calculate_comprehensive_risk_scores`. -/
def infrastructure_risk (b : Borrower) : ℚ :=
  ind (¬ b.electricity_connection) * 15 +
  ind (b.water_source = "Hand Pump" ∨ b.water_source = "Public Tap") * 10 +
  ind (¬ b.toilet_facility) * 8 +
  ind (b.road_connectivity = "Mud") * 12 +
  ind (¬ b.internet_usage) * 8 +
  ind (b.market_access_score < 5) * 10

/-- Embedding of `doc_risk` of `calculate_comprehensive_risk_scores`. -/
def doc_risk (b : Borrower) : ℚ :=
  ind (¬ b.pan_card) * 20 +
  ind (¬ b.insurance_life) * 10 +
  ind (¬ b.insurance_health) * 12 +
  ind (b.credit_history_length = 0) * 25 +
  ind (¬ b.voter_id) * 5

/-- Embedding of `pd.cut(.., bins=[0, 20, 40, 65, 100], labels=[...], include_lowest=True)`:
out-of-range scores become `none` (NaN). -/
def compCut (x : ℚ) : Option String :=
  if 0 ≤ x ∧ x ≤ 20 then some "Low Risk"
  else if 20 < x ∧ x ≤ 40 then some "Medium Risk"
  else if 40 < x ∧ x ≤ 65 then some "High Risk"
  else if 65 < x ∧ x ≤ 100 then some "Very High Risk"
  else none

/-- The columns added by `calculate_comprehensive_risk_scores`. -/
structure RiskOut where
  demographic_risk_score : ℚ
  financial_risk_score : ℚ
  asset_collateral_risk_score : ℚ
  social_digital_risk_score : ℚ
  infrastructure_risk_score : ℚ
  documentation_risk_score : ℚ
  overall_risk_score : ℚ
  risk_category : Option String
  default_probability : ℚ
  recommended_interest_rate : ℚ

/-- Embedding of `calculate_comprehensive_risk_scores` of `comprehensive_excel_generator.py`,
specialised to a single row. -/
def calculate_comprehensive_risk_scores (b : Borrower) : RiskOut :=
  let d := npClip (demo_risk b * 0.18) 0 100
  let f := npClip (financial_risk b * 0.25) 0 100
  let a := npClip (asset_risk b * 0.22) 0 100
  let s := npClip (social_risk b * 0.15) 0 100
  let i := npClip (infrastructure_risk b * 0.12) 0 100
  let doc := npClip (doc_risk b * 0.08) 0 100
  let overall := d * 0.18 + f * 0.25 + a * 0.22 + s * 0.15 + i * 0.12 + doc * 0.08
  { demographic_risk_score := d
    financial_risk_score := f
    asset_collateral_risk_score := a
    social_digital_risk_score := s
    infrastructure_risk_score := i
    documentation_risk_score := doc
    overall_risk_score := overall
    risk_category := compCut overall
    default_probability := npClip (overall / 100 * 0.25) 0 1
    recommended_interest_rate := 12 + overall / 100 * 8 }

end CompGen

namespace ExcelGen

/-- One borrower row of `excel_based_data_generator.generate_borrower_dataset`
(restricted to the columns read by its `calculate_comprehensive_risk_scores`). -/
structure Borrower where
  age : ℤ
  education_level : String
  family_size : ℤ
  years_in_location : ℤ
  monthly_income : ℚ
  requested_loan_amount : ℚ
  monthly_expenses : ℚ
  has_bank_account : Bool
  existing_loans : ℤ
  previous_defaults : ℤ
  savings_amount : ℚ
  owns_land : Bool
  owns_vehicle : Bool
  electricity_access : Bool
  road_connectivity : String
  internet_access : Bool
  collateral_value : ℚ
  shg_member : Bool
  mobile_ownership : Bool
  aadhaar_linked : Bool
  seasonal_migration : Bool
  financial_literacy_score : ℤ
  pan_card : Bool
  insurance_coverage : Bool
  credit_history_length : ℤ

/-- Embedding of `demo_risk` of the excel-based generator. -/
def demo_risk (b : Borrower) : ℚ :=
  ind (b.age > 55) * 15 +
  ind (b.education_level = "Illiterate") * 20 +
  ind (b.family_size > 6) * 10 +
  ind (b.years_in_location < 2) * 15

/-- Embedding of `financial_risk` of the excel-based generator (ratios inlined). -/
def financial_risk (b : Borrower) : ℚ :=
  ind (b.monthly_income / b.requested_loan_amount * 1000 < 5) * 25 +
  ind (b.monthly_expenses / b.monthly_income > 0.8) * 20 +
  ind (¬ b.has_bank_account) * 15 +
  ind (b.existing_loans > 1) * 20 +
  ind (b.previous_defaults > 0) * 30 +
  ind (b.savings_amount < b.monthly_income) * 10

/-- Embedding of `asset_risk` of the excel-based generator. -/
def asset_risk (b : Borrower) : ℚ :=
  ind (¬ b.owns_land) * 15 +
  ind (¬ b.owns_vehicle) * 10 +
  ind (¬ b.electricity_access) * 15 +
  ind (b.road_connectivity = "Mud") * 15 +
  ind (¬ b.internet_access) * 10 +
  ind (b.collateral_value < b.requested_loan_amount) * 20

/-- Embedding of `social_risk` of the excel-based generator. -/
def social_risk (b : Borrower) : ℚ :=
  ind (¬ b.shg_member) * 15 +
  ind (¬ b.mobile_ownership) * 10 +
  ind (¬ b.aadhaar_linked) * 10 +
  ind b.seasonal_migration * 20 +
  ind (b.financial_literacy_score < 5) * 15

/-- Embedding of `doc_risk` of the excel-based generator. -/
def doc_risk (b : Borrower) : ℚ :=
  ind (¬ b.pan_card) * 20 +
  ind (¬ b.insurance_coverage) * 10 +
  ind (b.credit_history_length = 0) * 25

/-- Embedding of `pd.cut(.., bins=[0, 25, 50, 75, 100], labels=[...])` (no `include_lowest`,
so the first bin is the half-open interval (0, 25]). -/
def excelCut (x : ℚ) : Option String :=
  if 0 < x ∧ x ≤ 25 then some "Low Risk"
  else if 25 < x ∧ x ≤ 50 then some "Medium Risk"
  else if 50 < x ∧ x ≤ 75 then some "High Risk"
  else if 75 < x ∧ x ≤ 100 then some "Very High Risk"
  else none

/-- The columns added by the excel-based `calculate_comprehensive_risk_scores`. -/
structure RiskOut where
  demographic_risk_score : ℚ
  financial_risk_score : ℚ
  asset_infrastructure_risk_score : ℚ
  social_behavioral_risk_score : ℚ
  documentation_risk_score : ℚ
  overall_risk_score : ℚ
  risk_category : Option String

/-- Embedding of `calculate_comprehensive_risk_scores` of `excel_based_data_generator.py`,
specialised to a single row. -/
def calculate_comprehensive_risk_scores (b : Borrower) : RiskOut :=
  let d := npClip (demo_risk b * 0.2) 0 100
  let f := npClip (financial_risk b * 0.3) 0 100
  let a := npClip (asset_risk b * 0.25) 0 100
  let s := npClip (social_risk b * 0.15) 0 100
  let doc := npClip (doc_risk b * 0.1) 0 100
  let overall := d * 0.2 + f * 0.3 + a * 0.25 + s * 0.15 + doc * 0.1
  { demographic_risk_score := d
    financial_risk_score := f
    asset_infrastructure_risk_score := a
    social_behavioral_risk_score := s
    documentation_risk_score := doc
    overall_risk_score := overall
    risk_category := excelCut overall }

end ExcelGen

namespace SampleGen

/-- Embedding of `random.choice(["none", "primary", "secondary", "higher"])` in
`generate_sample_data.py`: the four possible education values. -/
inductive EducationLevel where
  | eNone
  | ePrimary
  | eSecondary
  | eHigher
deriving DecidableEq

/-- The `education_risk` dictionary
`{"none": 1.0, "primary": 0.7, "secondary": 0.4, "higher": 0.2}`. -/
def education_risk : EducationLevel → ℚ
  | .eNone => 1
  | .ePrimary => 0.7
  | .eSecondary => 0.4
  | .eHigher => 0.2

/-- Embedding of `overall_risk` of `generate_sample_data`: the mean of the four risk
factors computed for a borrower. -/
def sample_overall_risk (age : ℤ) (income : ℚ) (ed : EducationLevel)
    (credit_history : ℚ) : ℚ :=
  let age_risk : ℚ := if 25 ≤ age ∧ age ≤ 45 then 0.5 else 0.8
  let income_risk : ℚ := max 0 (1 - income / 150000)
  let ed_risk := education_risk ed
  let credit_risk : ℚ := max 0 (1 - credit_history / 10)
  (age_risk + income_risk + ed_risk + credit_risk) / 4

/-- The `risk_category` conditional expression of `generate_sample_data`. -/
def sample_risk_category (x : ℚ) : String :=
  if x ≤ 0.2 then "Very Low"
  else if x ≤ 0.4 then "Low"
  else if x ≤ 0.6 then "Medium"
  else if x ≤ 0.8 then "High"
  else "Very High"

/-- The risk fields of a borrower record built by `generate_sample_data`. -/
structure BorrowerRisk where
  overall_risk_score : ℚ
  risk_category : String

/-- The borrower-record construction of `generate_sample_data`, restricted to
its risk fields. -/
def sample_borrower (age : ℤ) (income : ℚ) (ed : EducationLevel)
    (credit_history : ℚ) : BorrowerRisk :=
  let overall := sample_overall_risk age income ed credit_history
  { overall_risk_score := overall
    risk_category := sample_risk_category overall }

end SampleGen

namespace EnhancedGen

/-- Embedding of `categorize_risk` of `generate_enhanced_data.py`. -/
def categorize_risk (x : ℚ) : String :=
  if x ≤ 0.2 then "Very Low"
  else if x ≤ 0.4 then "Low"
  else if x ≤ 0.6 then "Medium"
  else if x ≤ 0.8 then "High"
  else "Very High"

end EnhancedGen

namespace BankAPI

/-- Embedding of `_calculate_risk_score` of `banking_intelligence_api.py`. The random draws
are parameters: `base = random.randint(25, 45)` and, in monsoon months
(June-August), `adj = random.randint(-5, 10)` is added. -/
def calculate_risk_score (base adj : ℤ) (monsoon : Bool) : ℤ :=
  min 100 (max 0 (base + if monsoon then adj else 0))

/-- The `risk_level` conditional expression of the `/api/risk-assessment`
handler `get_risk_assessment`. -/
def risk_level (s : ℤ) : String :=
  if s < 30 then "Low" else if s < 60 then "Medium" else "High"

/-- The fields of the `/api/risk-assessment` response that the claims are
about. -/
structure RiskAssessment where
  overall_risk_score : ℤ
  risk_level : String

/-- Embedding of `get_risk_assessment` of `banking_intelligence_api.py`: the response is
built from the `overall_risk_score` of the freshly drawn parameter set. -/
def get_risk_assessment (base adj : ℤ) (monsoon : Bool) : RiskAssessment :=
  let s := calculate_risk_score base adj monsoon
  { overall_risk_score := s, risk_level := risk_level s }

/-- The `purpose_risk` dictionary lookup `purpose_risk.get(loan_purpose, 10)`
of `get_lending_recommendation`. -/
def purpose_risk (p : String) : ℤ :=
  if p = "Agriculture" then 10
  else if p = "Business" then 5
  else if p = "Personal" then 15
  else if p = "Home" then 0
  else if p = "Vehicle" then 8
  else 10

/-- The fields of the `/api/lending-recommendation` response that the claims
are about (`env_overall_risk` is `current_environment.overall_risk`). -/
structure LendingRec where
  recommendation : String
  risk_score : ℤ
  suggested_interest_rate : ℚ
  env_overall_risk : ℤ

/-- Embedding of `get_lending_recommendation` of `banking_intelligence_api.py`: `envRisk`
is the `overall_risk_score` of the current parameter draw. -/
def get_lending_recommendation (envRisk : ℤ) (purpose : String) : LendingRec :=
  let adjusted := envRisk + purpose_risk purpose
  if adjusted < 40 then
    { recommendation := "APPROVE", risk_score := adjusted,
      suggested_interest_rate := 10.5, env_overall_risk := envRisk }
  else if adjusted < 70 then
    { recommendation := "CONDITIONAL_APPROVE", risk_score := adjusted,
      suggested_interest_rate := 12.0, env_overall_risk := envRisk }
  else
    { recommendation := "DEFER", risk_score := adjusted,
      suggested_interest_rate := 14.0, env_overall_risk := envRisk }

end BankAPI

namespace Str

/-- Does `l` start with `n` (character lists)? -/
def headMatch : List Char → List Char → Bool
  | [], _ => true
  | _ :: _, [] => false
  | a :: l1, b :: l2 => a == b && headMatch l1 l2

/-- Does the character list contain `n` as a contiguous substring? -/
def seqIn (n : List Char) : List Char → Bool
  | [] => n.isEmpty
  | c :: rest => headMatch n (c :: rest) || seqIn n rest

/-- Python `needle in hay` on strings. -/
def strContains (hay needle : String) : Bool := seqIn needle.data hay.data

/-- Python `str.lower()` (character-wise, over the underlying list). -/
def lowerStr (s : String) : String := ⟨s.data.map Char.toLower⟩

/-- Python `str.strip()`: drop whitespace from both ends. -/
def trimChars (l : List Char) : List Char :=
  ((l.dropWhile Char.isWhitespace).reverse.dropWhile Char.isWhitespace).reverse

/-- Numeric value of a digit run (`int("...")`). -/
def digitsVal (ds : List Char) : ℕ := ds.foldl (fun a c => a * 10 + (c.toNat - 48)) 0

/-- After `\s*`, is the next character a literal `%`? -/
def pctTail (cs : List Char) : Bool :=
  match cs.dropWhile Char.isWhitespace with
  | '%' :: _ => true
  | _ => false

/-- Attempt to match the regex `(\d{1,3}(?:\.\d+)?)\s*%` at the start of the
character list, returning the captured group as an exact rational. The
pattern is deterministic at a fixed position: the digit run must have length
1-3 (a longer run leaves a digit after the group, which can match neither
`\.` nor `\s*%`), and the greedy fractional digits allow no backtracking. -/
def matchPctAt (cs : List Char) : Option ℚ :=
  let ds := cs.takeWhile Char.isDigit
  if ds.length = 0 ∨ 3 < ds.length then none
  else
    let rest := cs.drop ds.length
    let intv : ℚ := (digitsVal ds : ℚ)
    match rest with
    | '.' :: rest2 =>
      let fs := rest2.takeWhile Char.isDigit
      if fs.length = 0 then
        if pctTail rest then some intv else none
      else
        let rest3 := rest2.drop fs.length
        if pctTail rest3 then
          some (intv + (digitsVal fs : ℚ) / ((10 : ℚ) ^ fs.length))
        else none
    | _ => if pctTail rest then some intv else none

/-- Embedding of `re.search`: try `matchPctAt` at every position, leftmost match first. -/
def findPct : List Char → Option ℚ
  | [] => none
  | c :: rest =>
    match matchPctAt (c :: rest) with
    | some v => some v
    | none => findPct rest

/-- Attempt to match `\((\d{4})\)` at the start of the character list. -/
def matchYearParenAt : List Char → Option ℤ
  | '(' :: rest =>
    let ds := rest.takeWhile Char.isDigit
    if ds.length = 4 then
      match rest.drop 4 with
      | ')' :: _ => some ((digitsVal (rest.take 4) : ℤ))
      | _ => none
    else none
  | _ => none

/-- Embedding of `re.search(r"\((\d{4})\)", text)`. -/
def findYearParen : List Char → Option ℤ
  | [] => none
  | c :: rest =>
    match matchYearParenAt (c :: rest) with
    | some v => some v
    | none => findYearParen rest

/-- Attempt to match `(\d{4})` at the start of the character list. -/
def matchYear4At (cs : List Char) : Option ℤ :=
  if 4 ≤ (cs.takeWhile Char.isDigit).length then
    some ((digitsVal (cs.take 4) : ℤ))
  else none

/-- Embedding of `re.search(r"(\d{4})", text)`. -/
def findYear4 : List Char → Option ℤ
  | [] => none
  | c :: rest =>
    match matchYear4At (c :: rest) with
    | some v => some v
    | none => findYear4 rest

end Str

namespace PopAgent

open Str

/-- Collapse maximal whitespace runs to a single space
(`re.sub(r"\s+", " ", s)`), tracking whether the previous character was
whitespace. -/
def collapseWsGo : List Char → Bool → List Char
  | [], _ => []
  | c :: rest, prevWs =>
    if c.isWhitespace then
      if prevWs then collapseWsGo rest true else ' ' :: collapseWsGo rest true
    else c :: collapseWsGo rest false

/-- Embedding of `normalize_name` of `ai_agent_population.py`: strip, lowercase, collapse
whitespace, drop everything outside `[a-z0-9 ]`. -/
def normalize_name (s : String) : String :=
  let t := (trimChars s.data).map Char.toLower
  let collapsed := collapseWsGo t false
  ⟨collapsed.filter (fun c => ('a' ≤ c ∧ c ≤ 'z') ∨ ('0' ≤ c ∧ c ≤ '9') ∨ c = ' ')⟩

/-- Helper for `wordsOf`: split on spaces, dropping empty pieces, with an
accumulator of the current word (reversed). -/
def wordsGo : List Char → List Char → List String
  | [], acc => if acc.isEmpty then [] else [⟨acc.reverse⟩]
  | c :: rest, acc =>
    if c = ' ' then
      if acc.isEmpty then wordsGo rest [] else ⟨acc.reverse⟩ :: wordsGo rest []
    else wordsGo rest (c :: acc)

/-- Python `str.split()` on a normalized name: a normalized name contains no
whitespace other than spaces, so splitting on spaces and dropping empty
pieces coincides with `split()`. -/
def wordsOf (s : String) : List String := wordsGo s.data []

/-- Embedding of `len(set(place_words) & set(k_words))`: the number of distinct shared
words. -/
def overlapScore (pws kws : List String) : ℕ :=
  (pws.dedup.filter (fun w => kws.contains w)).length

/-- The result dictionary `{"population": ..., "year": 2025}` returned by a
successful `election_lookup`. -/
structure ElectMatch where
  population : ℤ
  year : ℤ
deriving DecidableEq

/-- The best-scoring-match loop of `election_lookup` (word overlap, strictly
improving score, initial score 0). -/
def bestOverlapGo (pws : List String) :
    List (String × ℤ) → Option ℤ → ℕ → Option ℤ
  | [], best, _ => best
  | kv :: rest, best, bestScore =>
    let score := overlapScore pws (wordsOf kv.1)
    if bestScore < score ∧ 0 < score then bestOverlapGo pws rest (some kv.2) score
    else bestOverlapGo pws rest best bestScore

/-- Embedding of `election_lookup` of `ai_agent_population.py`. `data` is the cached
`ELECTION_DATA` mapping (normalized name, total electors) in insertion
order. -/
def election_lookup (data : List (String × ℤ)) (place : String) : Option ElectMatch :=
  if data.isEmpty then none
  else
    let norm := normalize_name place
    match data.find? (fun kv => kv.1 == norm) with
    | some kv => some ⟨kv.2, 2025⟩
    | none =>
      match data.find? (fun kv => norm == kv.1 || strContains kv.1 norm
          || strContains norm kv.1) with
      | some kv => some ⟨kv.2, 2025⟩
      | none =>
        match bestOverlapGo (wordsOf norm) data none 0 with
        | some pop => some ⟨pop, 2025⟩
        | none => none

/-- One element of the `claims["P1082"]` list handed to
`get_population_from_claims`. `amount = none` means `mainsnak` has no (or an
empty) `datavalue`, so the claim is skipped; `amount = some a` means a
datavalue is present and `a` is the parsed `value["amount"]` (`a = none`
when the key is missing or unparseable). `year` is the parsed `P585`
point-in-time qualifier (`none` when absent or unparseable). -/
structure WClaim where
  amount : Option (Option ℤ)
  year : Option ℤ
deriving DecidableEq

/-- The result dictionary `{"population": ..., "year": ...}` of
`get_population_from_claims`. -/
structure PopClaims where
  population : Option ℤ
  year : Option ℤ
deriving DecidableEq

/-- The claim-selection loop of `get_population_from_claims`: skip claims
without a datavalue; a claim with a year replaces the best when no best year
is set or its year is strictly larger; a yearless claim is kept only when no
best claim is set yet. -/
def pickBest : List WClaim → Option WClaim → Option ℤ → Option WClaim × Option ℤ
  | [], best, bestYear => (best, bestYear)
  | c :: rest, best, bestYear =>
    match c.amount with
    | none => pickBest rest best bestYear
    | some _ =>
      match c.year with
      | some y =>
        match bestYear with
        | none => pickBest rest (some c) (some y)
        | some y0 =>
          if y0 < y then pickBest rest (some c) (some y)
          else pickBest rest best bestYear
      | none =>
        match best with
        | none => pickBest rest (some c) bestYear
        | some _ => pickBest rest best bestYear

/-- Embedding of `get_population_from_claims` of `ai_agent_population.py`, as a function
of the parsed claim list. -/
def get_population_from_claims (claims : List WClaim) : Option PopClaims :=
  if claims.isEmpty then none
  else
    match pickBest claims none none with
    | (none, _) => none
    | (some c, bestYear) => some { population := c.amount.join, year := bestYear }

/-- The first `wbsearchentities` hit (`id`, `label`, `title` keys as read by
`get_population_for_place`). -/
structure SearchHit where
  id : Option String
  label : Option String
  title : Option String
deriving DecidableEq

/-- The output row of `get_population_for_place`. -/
structure PopRecord where
  input_name : String
  wikidata_id : Option String
  wikidata_label : Option String
  population : Option ℤ
  population_year : Option ℤ
  notes : Option String
deriving DecidableEq

/-- Embedding of `get_population_for_place` of `ai_agent_population.py`. The three
network-backed sub-calls are parameters; `.error e` stands for the call
raising exception `e`. `election_lookup` and the two Wikidata calls are each
wrapped in `try/except` in the source, so no exception escapes. -/
def get_population_for_place (place : String)
    (electR : Except String (Option ElectMatch))
    (searchR : Except String (Option SearchHit))
    (claimsR : Except String (Option PopClaims)) : PopRecord :=
  let base : PopRecord := ⟨place, none, none, none, none, none⟩
  let elect := match electR with
    | .error _ => none
    | .ok v => v
  match elect with
  | some el =>
    { base with population := some el.population,
                population_year := some el.year,
                notes := some "election-site" }
  | none =>
    match searchR with
    | .error e => { base with notes := some ("search-error: " ++ e) }
    | .ok none => { base with notes := some "no-wikidata-entity-found" }
    | .ok (some hit) =>
      let base2 := { base with
        wikidata_id := hit.id,
        wikidata_label := match hit.label with
          | some l => some l
          | none => hit.title }
      match claimsR with
      | .error e => { base2 with notes := some ("claims-error: " ++ e) }
      | .ok none => { base2 with notes := some "no-population-found" }
      | .ok (some pop) =>
        match pop.population with
        | none => { base2 with population := none,
                               population_year := pop.year,
                               notes := some "population-parsing-failed" }
        | some p => { base2 with population := some p,
                                 population_year := pop.year,
                                 notes := some "wikidata" }

end PopAgent

namespace LitAgent

open Str

/-- One `tr` row of the infobox table: the texts of its first `th` and first
`td`, when present. -/
structure TRow where
  th : Option String
  td : Option String
deriving DecidableEq

/-- Does the lowercased infobox row label mention literacy
(`"literacy" in label or "literates" in label`)? -/
def mentionsLiteracy (label : String) : Bool :=
  strContains (lowerStr label) "literacy" || strContains (lowerStr label) "literates"

/-- The dictionary returned by the parsing helpers of `literacy_agent.py`. -/
structure LitInfo where
  literacy : Option ℚ
  year : Option ℤ
  source : String
  raw : String
deriving DecidableEq

/-- Embedding of `extract_percentage` of `literacy_agent.py`
(`re.search(r"(\d{1,3}(?:\.\d+)?)\s*%", text)`). -/
def extract_percentage (s : String) : Option ℚ := findPct s.data

/-- The row loop of `parse_infobox_for_literacy`: rows without both a `th`
and a `td` are skipped; the first row whose header mentions literacy is
returned. -/
def findLitRow : List TRow → Option LitInfo
  | [] => none
  | r :: rest =>
    match r.th, r.td with
    | some th, some td =>
      if mentionsLiteracy th then
        some { literacy := extract_percentage td,
               year := findYearParen td.data,
               source := "wikipedia-infobox",
               raw := td }
      else findLitRow rest
    | _, _ => findLitRow rest

/-- Embedding of `parse_infobox_for_literacy` of `literacy_agent.py`, as a function of the
parsed infobox (`none` when the page has no `table` with an `infobox`
class). -/
def parse_infobox_for_literacy (infobox : Option (List TRow)) : Option LitInfo :=
  match infobox with
  | none => none
  | some rows => findLitRow rows

/-- Embedding of `parse_body_for_literacy` of `literacy_agent.py`, as a function of the
list of `p`/`li` texts: the first paragraph mentioning literacy from which a
percentage can be extracted. -/
def parse_body_for_literacy : List String → Option LitInfo
  | [] => none
  | p :: rest =>
    if strContains (lowerStr p) "literacy" || strContains (lowerStr p) "literate" then
      match extract_percentage p with
      | some pct =>
        some { literacy := some pct,
               year := findYear4 p.data,
               source := "wikipedia-body",
               raw := p }
      | none => parse_body_for_literacy rest
    else parse_body_for_literacy rest

/-- The parsed Wikipedia page (`BeautifulSoup(html, "lxml")`), restricted to
what the literacy parsers read. -/
structure WikiPage where
  infobox : Option (List TRow)
  paragraphs : List String
deriving DecidableEq

/-- The output row of `get_literacy_for_place`. -/
structure LitRecord where
  input_name : String
  wiki_title : Option String
  literacy : Option ℚ
  literacy_year : Option ℤ
  notes : Option String
deriving DecidableEq

/-- The body-parsing fallback at the end of `get_literacy_for_place`. -/
def bodyStep (base2 : LitRecord) (page : WikiPage) : LitRecord :=
  match parse_body_for_literacy page.paragraphs with
  | some b =>
    match b.literacy with
    | some pct =>
      { base2 with literacy := some pct,
                   literacy_year := b.year,
                   notes := some b.source }
    | none => { base2 with notes := some "no-literacy-found" }
  | none => { base2 with notes := some "no-literacy-found" }

/-- Embedding of `get_literacy_for_place` of `literacy_agent.py`. `searchR` is the
`wiki_search` call (wrapped in `try/except` in the source); `fetchR` is the
`fetch_wiki_html` call followed by soup construction, which the source does
NOT guard — `.error e` there propagates out of the function, hence the
`Except` result type. The two parse helpers are guarded in the source but
total here. -/
def get_literacy_for_place (place : String)
    (searchR : Except String (Option String))
    (fetchR : Except String (Option WikiPage)) : Except String LitRecord :=
  let base : LitRecord := ⟨place, none, none, none, none⟩
  match searchR with
  | .error e => .ok { base with notes := some ("search-error: " ++ e) }
  | .ok none => .ok { base with notes := some "no-wikipedia-search-result" }
  | .ok (some title) =>
    let base2 := { base with wiki_title := some title }
    match fetchR with
    | .error e => .error e
    | .ok none => .ok { base2 with notes := some "failed-fetch-page" }
    | .ok (some page) =>
      match parse_infobox_for_literacy page.infobox with
      | some i =>
        match i.literacy with
        | some pct =>
          .ok { base2 with literacy := some pct,
                           literacy_year := i.year,
                           notes := some i.source }
        | none => .ok (bodyStep base2 page)
      | none => .ok (bodyStep base2 page)

end LitAgent

namespace Sheets

/-- The first sheet of the input workbook, as read by `pd.read_excel`:
column names plus rows of (stringified) cells. -/
structure XSheet where
  header : List String
  rows : List (List String)

/-- The value of the first column in a row
(`df[first_col].astype(str)` for that row). -/
def firstCell (row : List String) : String := row.getD 0 ""

/-- Python `not place.strip()`. -/
def isBlankStr (s : String) : Bool := (Str.trimChars s.data).isEmpty

end Sheets

namespace PopAgent

open Sheets

/-- The placeholder row appended for a blank place name in
`ai_agent_population.process_excel`. -/
def pop_empty_record (place : String) : PopRecord :=
  ⟨place, none, none, none, none, some "empty-input"⟩

/-- The result accumulated for one place in the loop of
`ai_agent_population.process_excel`. `lookup` is `get_population_for_place`
with its network environment fixed. -/
def pop_result_of (lookup : String → PopRecord) (place : String) : PopRecord :=
  if isBlankStr place then pop_empty_record place else lookup place

/-- The `results` list built by the loop of
`ai_agent_population.process_excel`, in input order. -/
def pop_results (lookup : String → PopRecord) : List String → List PopRecord
  | [] => []
  | p :: rest => pop_result_of lookup p :: pop_results lookup rest

/-- Embedding of `process_excel` of `ai_agent_population.py`: the shape check
(`ValueError` on a sheet without columns, modelled as `.error`), the
per-place loop over the first column, and the row-wise `pd.concat` of the
original frame with the result frame. Each output row pairs the unchanged
original cells with the appended result fields. -/
def process_excel (lookup : String → PopRecord) (df : XSheet) :
    Except String (List (List String × PopRecord)) :=
  if df.header.length < 1 then
    .error "Input Excel must have at least one column with place names"
  else
    .ok (df.rows.zip (pop_results lookup (df.rows.map firstCell)))

end PopAgent

namespace LitAgent

open Sheets

/-- The placeholder row appended for a blank place name in
`literacy_agent.process_excel`. -/
def lit_empty_record (place : String) : LitRecord :=
  ⟨place, none, none, none, some "empty-input"⟩

/-- The row written when `get_literacy_for_place` raises: the loop of
`literacy_agent.process_excel` catches the exception and records it in
`notes`. -/
def lit_error_record (place e : String) : LitRecord :=
  ⟨place, none, none, none, some ("error: " ++ e)⟩

/-- The result accumulated for one place in the loop of
`literacy_agent.process_excel`. -/
def lit_result_of (lookup : String → Except String LitRecord)
    (place : String) : LitRecord :=
  if isBlankStr place then lit_empty_record place
  else
    match lookup place with
    | .ok r => r
    | .error e => lit_error_record place e

/-- The `results` list built by the loop of `literacy_agent.process_excel`,
in input order. -/
def lit_results (lookup : String → Except String LitRecord) :
    List String → List LitRecord
  | [] => []
  | p :: rest => lit_result_of lookup p :: lit_results lookup rest

/-- Embedding of `process_excel` of `literacy_agent.py` (same structure as the population
agent's, with the lookup guarded by `try/except`). -/
def process_excel (lookup : String → Except String LitRecord) (df : XSheet) :
    Except String (List (List String × LitRecord)) :=
  if df.header.length < 1 then
    .error "Input Excel must have at least one column with place names"
  else
    .ok (df.rows.zip (lit_results lookup (df.rows.map firstCell)))

end LitAgent

section RiskLemmas

lemma npClip_nonneg (x : ℚ) : 0 ≤ npClip x 0 100 :=
  le_min (by norm_num) (le_max_left 0 x)

lemma npClip_le_hundred (x : ℚ) : npClip x 0 100 ≤ 100 := min_le_left _ _

lemma education_risk_bounds (ed : SampleGen.EducationLevel) :
    0.2 ≤ SampleGen.education_risk ed ∧ SampleGen.education_risk ed ≤ 1 := by
  cases ed <;> norm_num [SampleGen.education_risk]

end RiskLemmas

/-- C1: in both generators the overall risk score of every record is the
fixed-weight linear combination of the component risk scores, with weights
0.18/0.25/0.22/0.15/0.12/0.08 (comprehensive generator) and
0.2/0.3/0.25/0.15/0.1 (excel-based generator); the weights do not depend on
the record. -/
theorem claim_C1 :
    (∀ b : CompGen.Borrower,
      (CompGen.calculate_comprehensive_risk_scores b).overall_risk_score =
        0.18 * (CompGen.calculate_comprehensive_risk_scores b).demographic_risk_score +
        0.25 * (CompGen.calculate_comprehensive_risk_scores b).financial_risk_score +
        0.22 * (CompGen.calculate_comprehensive_risk_scores b).asset_collateral_risk_score +
        0.15 * (CompGen.calculate_comprehensive_risk_scores b).social_digital_risk_score +
        0.12 * (CompGen.calculate_comprehensive_risk_scores b).infrastructure_risk_score +
        0.08 * (CompGen.calculate_comprehensive_risk_scores b).documentation_risk_score) ∧
    (∀ b : ExcelGen.Borrower,
      (ExcelGen.calculate_comprehensive_risk_scores b).overall_risk_score =
        0.2 * (ExcelGen.calculate_comprehensive_risk_scores b).demographic_risk_score +
        0.3 * (ExcelGen.calculate_comprehensive_risk_scores b).financial_risk_score +
        0.25 * (ExcelGen.calculate_comprehensive_risk_scores b).asset_infrastructure_risk_score +
        0.15 * (ExcelGen.calculate_comprehensive_risk_scores b).social_behavioral_risk_score +
        0.1 * (ExcelGen.calculate_comprehensive_risk_scores b).documentation_risk_score) := by
  constructor <;> intro b <;>
    simp only [CompGen.calculate_comprehensive_risk_scores,
      ExcelGen.calculate_comprehensive_risk_scores] <;> ring

/-- C2: every component risk score and the overall risk score lie in
[0, 100] in both excel generators (the components by `np.clip`, the overall
score because the weights sum to 1), and `generate_sample_data`'s
`overall_risk` — the mean of its four risk factors — also lies in [0, 100]
for the generated input ranges (non-negative income and credit history). -/
theorem claim_C2 :
    (∀ b : CompGen.Borrower,
      (0 ≤ (CompGen.calculate_comprehensive_risk_scores b).demographic_risk_score ∧
        (CompGen.calculate_comprehensive_risk_scores b).demographic_risk_score ≤ 100) ∧
      (0 ≤ (CompGen.calculate_comprehensive_risk_scores b).financial_risk_score ∧
        (CompGen.calculate_comprehensive_risk_scores b).financial_risk_score ≤ 100) ∧
      (0 ≤ (CompGen.calculate_comprehensive_risk_scores b).asset_collateral_risk_score ∧
        (CompGen.calculate_comprehensive_risk_scores b).asset_collateral_risk_score ≤ 100) ∧
      (0 ≤ (CompGen.calculate_comprehensive_risk_scores b).social_digital_risk_score ∧
        (CompGen.calculate_comprehensive_risk_scores b).social_digital_risk_score ≤ 100) ∧
      (0 ≤ (CompGen.calculate_comprehensive_risk_scores b).infrastructure_risk_score ∧
        (CompGen.calculate_comprehensive_risk_scores b).infrastructure_risk_score ≤ 100) ∧
      (0 ≤ (CompGen.calculate_comprehensive_risk_scores b).documentation_risk_score ∧
        (CompGen.calculate_comprehensive_risk_scores b).documentation_risk_score ≤ 100) ∧
      (0 ≤ (CompGen.calculate_comprehensive_risk_scores b).overall_risk_score ∧
        (CompGen.calculate_comprehensive_risk_scores b).overall_risk_score ≤ 100)) ∧
    (∀ b : ExcelGen.Borrower,
      (0 ≤ (ExcelGen.calculate_comprehensive_risk_scores b).demographic_risk_score ∧
        (ExcelGen.calculate_comprehensive_risk_scores b).demographic_risk_score ≤ 100) ∧
      (0 ≤ (ExcelGen.calculate_comprehensive_risk_scores b).financial_risk_score ∧
        (ExcelGen.calculate_comprehensive_risk_scores b).financial_risk_score ≤ 100) ∧
      (0 ≤ (ExcelGen.calculate_comprehensive_risk_scores b).asset_infrastructure_risk_score ∧
        (ExcelGen.calculate_comprehensive_risk_scores b).asset_infrastructure_risk_score ≤ 100) ∧
      (0 ≤ (ExcelGen.calculate_comprehensive_risk_scores b).social_behavioral_risk_score ∧
        (ExcelGen.calculate_comprehensive_risk_scores b).social_behavioral_risk_score ≤ 100) ∧
      (0 ≤ (ExcelGen.calculate_comprehensive_risk_scores b).documentation_risk_score ∧
        (ExcelGen.calculate_comprehensive_risk_scores b).documentation_risk_score ≤ 100) ∧
      (0 ≤ (ExcelGen.calculate_comprehensive_risk_scores b).overall_risk_score ∧
        (ExcelGen.calculate_comprehensive_risk_scores b).overall_risk_score ≤ 100)) ∧
    (∀ (age : ℤ) (income : ℚ) (ed : SampleGen.EducationLevel) (credit : ℚ),
      0 ≤ income → 0 ≤ credit →
      0 ≤ SampleGen.sample_overall_risk age income ed credit ∧
        SampleGen.sample_overall_risk age income ed credit ≤ 100) := by
  refine ⟨fun b => ?_, fun b => ?_, fun age income ed credit h1 h2 => ?_⟩
  · have d1 := npClip_nonneg (CompGen.demo_risk b * 0.18)
    have d2 := npClip_le_hundred (CompGen.demo_risk b * 0.18)
    have f1 := npClip_nonneg (CompGen.financial_risk b * 0.25)
    have f2 := npClip_le_hundred (CompGen.financial_risk b * 0.25)
    have a1 := npClip_nonneg (CompGen.asset_risk b * 0.22)
    have a2 := npClip_le_hundred (CompGen.asset_risk b * 0.22)
    have s1 := npClip_nonneg (CompGen.social_risk b * 0.15)
    have s2 := npClip_le_hundred (CompGen.social_risk b * 0.15)
    have i1 := npClip_nonneg (CompGen.infrastructure_risk b * 0.12)
    have i2 := npClip_le_hundred (CompGen.infrastructure_risk b * 0.12)
    have c1 := npClip_nonneg (CompGen.doc_risk b * 0.08)
    have c2 := npClip_le_hundred (CompGen.doc_risk b * 0.08)
    simp only [CompGen.calculate_comprehensive_risk_scores]
    refine ⟨⟨d1, d2⟩, ⟨f1, f2⟩, ⟨a1, a2⟩, ⟨s1, s2⟩, ⟨i1, i2⟩, ⟨c1, c2⟩, ?_, ?_⟩ <;> linarith
  · have d1 := npClip_nonneg (ExcelGen.demo_risk b * 0.2)
    have d2 := npClip_le_hundred (ExcelGen.demo_risk b * 0.2)
    have f1 := npClip_nonneg (ExcelGen.financial_risk b * 0.3)
    have f2 := npClip_le_hundred (ExcelGen.financial_risk b * 0.3)
    have a1 := npClip_nonneg (ExcelGen.asset_risk b * 0.25)
    have a2 := npClip_le_hundred (ExcelGen.asset_risk b * 0.25)
    have s1 := npClip_nonneg (ExcelGen.social_risk b * 0.15)
    have s2 := npClip_le_hundred (ExcelGen.social_risk b * 0.15)
    have c1 := npClip_nonneg (ExcelGen.doc_risk b * 0.1)
    have c2 := npClip_le_hundred (ExcelGen.doc_risk b * 0.1)
    simp only [ExcelGen.calculate_comprehensive_risk_scores]
    refine ⟨⟨d1, d2⟩, ⟨f1, f2⟩, ⟨a1, a2⟩, ⟨s1, s2⟩, ⟨c1, c2⟩, ?_, ?_⟩ <;> linarith
  · have hed := education_risk_bounds ed
    have hinc : 0 ≤ income / 150000 := by positivity
    have hcr : 0 ≤ credit / 10 := by positivity
    have hm1 : 0 ≤ max 0 (1 - income / 150000) := le_max_left _ _
    have hm2 : max 0 (1 - income / 150000) ≤ 1 := max_le (by norm_num) (by linarith)
    have hm3 : 0 ≤ max 0 (1 - credit / 10) := le_max_left _ _
    have hm4 : max 0 (1 - credit / 10) ≤ 1 := max_le (by norm_num) (by linarith)
    simp only [SampleGen.sample_overall_risk]
    constructor <;> split_ifs <;> linarith [hed.1, hed.2]

/-- C2 witness: the bounds evaluated at a concrete borrower and concrete
sample-generator inputs. -/
theorem claim_C2_witness :
    (0 : ℚ) ≤ 20000 ∧ (0 : ℚ) ≤ 7 ∧
    (0 ≤ SampleGen.sample_overall_risk 30 20000 SampleGen.EducationLevel.eHigher 7 ∧
      SampleGen.sample_overall_risk 30 20000 SampleGen.EducationLevel.eHigher 7 ≤ 100) :=
  ⟨by norm_num, by norm_num,
    claim_C2.2.2 30 20000 SampleGen.EducationLevel.eHigher 7 (by norm_num) (by norm_num)⟩

/-- C3: in every generator the risk label is a function of the overall risk
score alone, given by static thresholds: the comprehensive generator buckets
by `pd.cut` with bins [0,20], (20,40], (40,65], (65,100]; `generate_sample_data`
and `categorize_risk` of `generate_enhanced_data` use the thresholds
0.2/0.4/0.6/0.8, and the two threshold functions coincide. -/
theorem claim_C3 :
    (∀ b1 b2 : CompGen.Borrower,
      (CompGen.calculate_comprehensive_risk_scores b1).overall_risk_score =
        (CompGen.calculate_comprehensive_risk_scores b2).overall_risk_score →
      (CompGen.calculate_comprehensive_risk_scores b1).risk_category =
        (CompGen.calculate_comprehensive_risk_scores b2).risk_category) ∧
    (∀ b : CompGen.Borrower,
      (CompGen.calculate_comprehensive_risk_scores b).risk_category =
        CompGen.compCut (CompGen.calculate_comprehensive_risk_scores b).overall_risk_score) ∧
    (∀ x : ℚ,
      (0 ≤ x → x ≤ 20 → CompGen.compCut x = some "Low Risk") ∧
      (20 < x → x ≤ 40 → CompGen.compCut x = some "Medium Risk") ∧
      (40 < x → x ≤ 65 → CompGen.compCut x = some "High Risk") ∧
      (65 < x → x ≤ 100 → CompGen.compCut x = some "Very High Risk")) ∧
    (∀ (age : ℤ) (income : ℚ) (ed : SampleGen.EducationLevel) (credit : ℚ),
      (SampleGen.sample_borrower age income ed credit).risk_category =
        SampleGen.sample_risk_category
          ((SampleGen.sample_borrower age income ed credit).overall_risk_score)) ∧
    (∀ x : ℚ,
      (x ≤ 0.2 → SampleGen.sample_risk_category x = "Very Low") ∧
      (0.2 < x → x ≤ 0.4 → SampleGen.sample_risk_category x = "Low") ∧
      (0.4 < x → x ≤ 0.6 → SampleGen.sample_risk_category x = "Medium") ∧
      (0.6 < x → x ≤ 0.8 → SampleGen.sample_risk_category x = "High") ∧
      (0.8 < x → SampleGen.sample_risk_category x = "Very High")) ∧
    (∀ x : ℚ, EnhancedGen.categorize_risk x = SampleGen.sample_risk_category x) := by
  refine ⟨fun b1 b2 h => ?_, fun b => rfl, fun x => ?_, fun age income ed credit => rfl,
    fun x => ?_, fun x => rfl⟩
  · exact congrArg CompGen.compCut h
  · refine ⟨fun h0 h20 => ?_, fun h20 h40 => ?_, fun h40 h65 => ?_, fun h65 h100 => ?_⟩
    · unfold CompGen.compCut
      rw [if_pos ⟨h0, h20⟩]
    · have n1 : ¬(0 ≤ x ∧ x ≤ 20) := fun hc => absurd h20 (not_lt.mpr hc.2)
      unfold CompGen.compCut
      rw [if_neg n1, if_pos ⟨h20, h40⟩]
    · have n1 : ¬(0 ≤ x ∧ x ≤ 20) := fun hc => by linarith [hc.2]
      have n2 : ¬(20 < x ∧ x ≤ 40) := fun hc => by linarith [hc.2]
      unfold CompGen.compCut
      rw [if_neg n1, if_neg n2, if_pos ⟨h40, h65⟩]
    · have n1 : ¬(0 ≤ x ∧ x ≤ 20) := fun hc => by linarith [hc.2]
      have n2 : ¬(20 < x ∧ x ≤ 40) := fun hc => by linarith [hc.2]
      have n3 : ¬(40 < x ∧ x ≤ 65) := fun hc => by linarith [hc.2]
      unfold CompGen.compCut
      rw [if_neg n1, if_neg n2, if_neg n3, if_pos ⟨h65, h100⟩]
  · refine ⟨fun h1 => ?_, fun h1 h2 => ?_, fun h1 h2 => ?_, fun h1 h2 => ?_, fun h1 => ?_⟩ <;>
      unfold SampleGen.sample_risk_category
    · rw [if_pos h1]
    · rw [if_neg (not_le.mpr h1), if_pos h2]
    · rw [if_neg (not_le.mpr (by linarith : (0.2 : ℚ) < x)),
        if_neg (not_le.mpr h1), if_pos h2]
    · rw [if_neg (not_le.mpr (by linarith : (0.2 : ℚ) < x)),
        if_neg (not_le.mpr (by linarith : (0.4 : ℚ) < x)),
        if_neg (not_le.mpr h1), if_pos h2]
    · rw [if_neg (not_le.mpr (by linarith : (0.2 : ℚ) < x)),
        if_neg (not_le.mpr (by linarith : (0.4 : ℚ) < x)),
        if_neg (not_le.mpr (by linarith : (0.6 : ℚ) < x)),
        if_neg (not_le.mpr h1)]

/-- C3 witness: the threshold buckets evaluated at concrete scores. -/
theorem claim_C3_witness :
    CompGen.compCut 30 = some "Medium Risk" ∧
    SampleGen.sample_risk_category 0.5 = "Medium" :=
  ⟨(claim_C3.2.2.1 30).2.1 (by norm_num) (by norm_num),
   (claim_C3.2.2.2.2.1 0.5).2.2.1 (by norm_num) (by norm_num)⟩

lemma risk_level_cases (s : ℤ) :
    (BankAPI.risk_level s = "Low" ↔ s < 30) ∧
    (BankAPI.risk_level s = "Medium" ↔ 30 ≤ s ∧ s < 60) ∧
    (BankAPI.risk_level s = "High" ↔ 60 ≤ s) := by
  unfold BankAPI.risk_level
  split_ifs with ha hb
  · exact ⟨⟨fun _ => ha, fun _ => rfl⟩,
      ⟨fun h => absurd h (by decide), fun h => absurd ha (by omega)⟩,
      ⟨fun h => absurd h (by decide), fun h => absurd ha (by omega)⟩⟩
  · exact ⟨⟨fun h => absurd h (by decide), fun h => absurd h ha⟩,
      ⟨fun _ => by omega, fun _ => rfl⟩,
      ⟨fun h => absurd h (by decide), fun h => absurd h (by omega)⟩⟩
  · exact ⟨⟨fun h => absurd h (by decide), fun h => absurd h ha⟩,
      ⟨fun h => absurd h (by decide), fun h => absurd h (by omega)⟩,
      ⟨fun _ => by omega, fun _ => rfl⟩⟩

/-- C6: every `/api/risk-assessment` response carries an
`overall_risk_score` in [0, 100] — in fact in [20, 55] for the ranges drawn
by `_calculate_risk_score` — and its `risk_level` is "Low" exactly when the
score is below 30, "Medium" exactly when it is in [30, 60), and "High"
otherwise. -/
theorem claim_C6 (base adj : ℤ) (monsoon : Bool)
    (hb1 : 25 ≤ base) (hb2 : base ≤ 45) (ha1 : -5 ≤ adj) (ha2 : adj ≤ 10) :
    (0 ≤ (BankAPI.get_risk_assessment base adj monsoon).overall_risk_score ∧
      (BankAPI.get_risk_assessment base adj monsoon).overall_risk_score ≤ 100) ∧
    (20 ≤ (BankAPI.get_risk_assessment base adj monsoon).overall_risk_score ∧
      (BankAPI.get_risk_assessment base adj monsoon).overall_risk_score ≤ 55) ∧
    ((BankAPI.get_risk_assessment base adj monsoon).risk_level = "Low" ↔
      (BankAPI.get_risk_assessment base adj monsoon).overall_risk_score < 30) ∧
    ((BankAPI.get_risk_assessment base adj monsoon).risk_level = "Medium" ↔
      (30 ≤ (BankAPI.get_risk_assessment base adj monsoon).overall_risk_score ∧
        (BankAPI.get_risk_assessment base adj monsoon).overall_risk_score < 60)) ∧
    ((BankAPI.get_risk_assessment base adj monsoon).risk_level = "High" ↔
      60 ≤ (BankAPI.get_risk_assessment base adj monsoon).overall_risk_score) := by
  have hrange : 20 ≤ BankAPI.calculate_risk_score base adj monsoon ∧
      BankAPI.calculate_risk_score base adj monsoon ≤ 55 := by
    unfold BankAPI.calculate_risk_score
    cases monsoon <;> simp only [if_true, if_false, Bool.false_eq_true] <;> omega
  have hiff := risk_level_cases (BankAPI.calculate_risk_score base adj monsoon)
  exact ⟨⟨le_trans (by norm_num) hrange.1, le_trans hrange.2 (by norm_num)⟩,
    hrange, hiff.1, hiff.2.1, hiff.2.2⟩

/-- C6 witness: the response at a concrete non-monsoon draw. -/
theorem claim_C6_witness :
    (0 ≤ (BankAPI.get_risk_assessment 30 0 false).overall_risk_score ∧
      (BankAPI.get_risk_assessment 30 0 false).overall_risk_score ≤ 100) ∧
    (20 ≤ (BankAPI.get_risk_assessment 30 0 false).overall_risk_score ∧
      (BankAPI.get_risk_assessment 30 0 false).overall_risk_score ≤ 55) ∧
    ((BankAPI.get_risk_assessment 30 0 false).risk_level = "Low" ↔
      (BankAPI.get_risk_assessment 30 0 false).overall_risk_score < 30) ∧
    ((BankAPI.get_risk_assessment 30 0 false).risk_level = "Medium" ↔
      (30 ≤ (BankAPI.get_risk_assessment 30 0 false).overall_risk_score ∧
        (BankAPI.get_risk_assessment 30 0 false).overall_risk_score < 60)) ∧
    ((BankAPI.get_risk_assessment 30 0 false).risk_level = "High" ↔
      60 ≤ (BankAPI.get_risk_assessment 30 0 false).overall_risk_score) :=
  claim_C6 30 0 false (by norm_num) (by norm_num) (by norm_num) (by norm_num)

/-- C7: for every `/api/lending-recommendation` request, the adjusted risk
equals the current environment risk plus a fixed purpose offset (Agriculture
10, Business 5, Personal 15, Home 0, Vehicle 8, anything else 10), and the
recommendation/interest-rate pair is APPROVE/10.5 exactly below 40,
CONDITIONAL_APPROVE/12.0 exactly on [40, 70), and DEFER/14.0 otherwise. -/
theorem claim_C7 (envRisk : ℤ) (purpose : String) :
    (BankAPI.get_lending_recommendation envRisk purpose).risk_score =
      envRisk + BankAPI.purpose_risk purpose ∧
    (BankAPI.get_lending_recommendation envRisk purpose).env_overall_risk = envRisk ∧
    BankAPI.purpose_risk "Agriculture" = 10 ∧
    BankAPI.purpose_risk "Business" = 5 ∧
    BankAPI.purpose_risk "Personal" = 15 ∧
    BankAPI.purpose_risk "Home" = 0 ∧
    BankAPI.purpose_risk "Vehicle" = 8 ∧
    (purpose ≠ "Agriculture" → purpose ≠ "Business" → purpose ≠ "Personal" →
      purpose ≠ "Home" → purpose ≠ "Vehicle" → BankAPI.purpose_risk purpose = 10) ∧
    (((BankAPI.get_lending_recommendation envRisk purpose).recommendation = "APPROVE" ∧
        (BankAPI.get_lending_recommendation envRisk purpose).suggested_interest_rate = 10.5) ↔
      envRisk + BankAPI.purpose_risk purpose < 40) ∧
    (((BankAPI.get_lending_recommendation envRisk purpose).recommendation = "CONDITIONAL_APPROVE" ∧
        (BankAPI.get_lending_recommendation envRisk purpose).suggested_interest_rate = 12.0) ↔
      (40 ≤ envRisk + BankAPI.purpose_risk purpose ∧
        envRisk + BankAPI.purpose_risk purpose < 70)) ∧
    (((BankAPI.get_lending_recommendation envRisk purpose).recommendation = "DEFER" ∧
        (BankAPI.get_lending_recommendation envRisk purpose).suggested_interest_rate = 14.0) ↔
      70 ≤ envRisk + BankAPI.purpose_risk purpose) := by
  have sCA : ("CONDITIONAL_APPROVE" : String) ≠ "APPROVE" := by decide
  have sDA : ("DEFER" : String) ≠ "APPROVE" := by decide
  have sAC : ("APPROVE" : String) ≠ "CONDITIONAL_APPROVE" := by decide
  have sDC : ("DEFER" : String) ≠ "CONDITIONAL_APPROVE" := by decide
  have sAD : ("APPROVE" : String) ≠ "DEFER" := by decide
  have sCD : ("CONDITIONAL_APPROVE" : String) ≠ "DEFER" := by decide
  refine ⟨?_, ?_, by decide, by decide, by decide, by decide, by decide, ?_, ?_, ?_, ?_⟩
  · simp only [BankAPI.get_lending_recommendation]
    split_ifs <;> rfl
  · simp only [BankAPI.get_lending_recommendation]
    split_ifs <;> rfl
  · intro n1 n2 n3 n4 n5
    unfold BankAPI.purpose_risk
    rw [if_neg n1, if_neg n2, if_neg n3, if_neg n4, if_neg n5]
  · simp only [BankAPI.get_lending_recommendation]
    split_ifs with h1 h2
    · exact ⟨fun _ => h1, fun _ => ⟨rfl, rfl⟩⟩
    · exact ⟨fun h => absurd h.1 sCA, fun h => absurd h h1⟩
    · exact ⟨fun h => absurd h.1 sDA, fun h => absurd h h1⟩
  · simp only [BankAPI.get_lending_recommendation]
    split_ifs with h1 h2
    · exact ⟨fun h => absurd h.1 sAC, fun h => absurd h.1 (by omega)⟩
    · exact ⟨fun _ => ⟨by omega, h2⟩, fun _ => ⟨rfl, rfl⟩⟩
    · exact ⟨fun h => absurd h.1 sDC, fun h => absurd h.2 h2⟩
  · simp only [BankAPI.get_lending_recommendation]
    split_ifs with h1 h2
    · exact ⟨fun h => absurd h.1 sAD, fun h => absurd h (by omega)⟩
    · exact ⟨fun h => absurd h.1 sCD, fun h => absurd h (by omega)⟩
    · exact ⟨fun _ => by omega, fun _ => ⟨rfl, rfl⟩⟩

/-- C7 witness: the default purpose offset and the conditional-approval
band evaluated at concrete inputs. -/
theorem claim_C7_witness :
    BankAPI.purpose_risk "Farming" = 10 ∧
    ((BankAPI.get_lending_recommendation 25 "Personal").recommendation = "CONDITIONAL_APPROVE" ∧
      (BankAPI.get_lending_recommendation 25 "Personal").suggested_interest_rate = 12.0) :=
  ⟨(claim_C7 30 "Farming").2.2.2.2.2.2.2.1
      (by decide) (by decide) (by decide) (by decide) (by decide),
   ((claim_C7 25 "Personal").2.2.2.2.2.2.2.2.2.1).mpr (by decide)⟩

lemma findLitRow_source (rows : List LitAgent.TRow) :
    ∀ i, LitAgent.findLitRow rows = some i → i.source = "wikipedia-infobox" := by
  induction rows with
  | nil => intro i h; simp [LitAgent.findLitRow] at h
  | cons r rest ih =>
    intro i h
    rcases hth : r.th with _ | t <;> rcases htd : r.td with _ | d <;>
      simp only [LitAgent.findLitRow, hth, htd] at h
    · exact ih i h
    · exact ih i h
    · exact ih i h
    · by_cases hm : LitAgent.mentionsLiteracy t = true
      · rw [if_pos hm] at h
        cases h
        rfl
      · rw [if_neg hm] at h
        exact ih i h

lemma parse_infobox_source (ib : Option (List LitAgent.TRow)) (i : LitAgent.LitInfo)
    (h : LitAgent.parse_infobox_for_literacy ib = some i) :
    i.source = "wikipedia-infobox" := by
  cases ib with
  | none => simp [LitAgent.parse_infobox_for_literacy] at h
  | some rows => exact findLitRow_source rows i h

lemma parse_body_source (ps : List String) :
    ∀ i, LitAgent.parse_body_for_literacy ps = some i → i.source = "wikipedia-body" := by
  induction ps with
  | nil => intro i h; simp [LitAgent.parse_body_for_literacy] at h
  | cons p rest ih =>
    intro i h
    unfold LitAgent.parse_body_for_literacy at h
    split at h
    · rcases hpc : LitAgent.extract_percentage p with _ | pct <;> rw [hpc] at h
      · exact ih i h
      · cases h
        rfl
    · exact ih i h

/-- C4 counterexample: the claim fails for the literacy agent. When
`wiki_search` succeeds but the unguarded `fetch_wiki_html` call raises, the
exception propagates out of `get_literacy_for_place` instead of being turned
into a `notes` string. -/
theorem claim_C4_counterexample :
    LitAgent.get_literacy_for_place "Chennai" (Except.ok (some "Chennai"))
        (Except.error "connection timeout") = Except.error "connection timeout" ∧
    ∀ rec : LitAgent.LitRecord,
      LitAgent.get_literacy_for_place "Chennai" (Except.ok (some "Chennai"))
        (Except.error "connection timeout") ≠ Except.ok rec := by
  refine ⟨rfl, fun rec h => ?_⟩
  simp [LitAgent.get_literacy_for_place] at h

/-- C4 (amended): `get_population_for_place` never propagates an exception
from its lookups and always sets `notes` to one of its seven outcome
strings; `get_literacy_for_place` does the same with its six outcome strings
whenever it returns normally, but an exception raised by the page fetch
(`fetch_wiki_html`) propagates to the caller. -/
theorem claim_C4 :
    (∀ (place : String) (electR : Except String (Option PopAgent.ElectMatch))
        (searchR : Except String (Option PopAgent.SearchHit))
        (claimsR : Except String (Option PopAgent.PopClaims)),
      ∃ s, (PopAgent.get_population_for_place place electR searchR claimsR).notes = some s ∧
        (s = "election-site" ∨ (∃ e, s = "search-error: " ++ e) ∨
          s = "no-wikidata-entity-found" ∨ (∃ e, s = "claims-error: " ++ e) ∨
          s = "no-population-found" ∨ s = "population-parsing-failed" ∨ s = "wikidata")) ∧
    (∀ (place : String) (searchR : Except String (Option String))
        (fetchR : Except String (Option LitAgent.WikiPage)) (rec : LitAgent.LitRecord),
      LitAgent.get_literacy_for_place place searchR fetchR = Except.ok rec →
      ∃ s, rec.notes = some s ∧
        ((∃ e, s = "search-error: " ++ e) ∨ s = "no-wikipedia-search-result" ∨
          s = "failed-fetch-page" ∨ s = "wikipedia-infobox" ∨
          s = "wikipedia-body" ∨ s = "no-literacy-found")) ∧
    (∀ (place title e : String),
      LitAgent.get_literacy_for_place place (Except.ok (some title)) (Except.error e) =
        Except.error e) := by
  refine ⟨fun place electR searchR claimsR => ?_, fun place searchR fetchR rec h => ?_,
    fun place title e => rfl⟩
  · rcases electR with e0 | el
    · rcases searchR with e1 | sh
      · exact ⟨_, rfl, Or.inr (Or.inl ⟨e1, rfl⟩)⟩
      · rcases sh with _ | hit
        · exact ⟨_, rfl, Or.inr (Or.inr (Or.inl rfl))⟩
        · rcases claimsR with e2 | pc
          · exact ⟨_, rfl, Or.inr (Or.inr (Or.inr (Or.inl ⟨e2, rfl⟩)))⟩
          · rcases pc with _ | pc
            · exact ⟨_, rfl, Or.inr (Or.inr (Or.inr (Or.inr (Or.inl rfl))))⟩
            · rcases pc with ⟨popf, yearf⟩
              rcases popf with _ | p
              · exact ⟨_, rfl,
                  Or.inr (Or.inr (Or.inr (Or.inr (Or.inr (Or.inl rfl)))))⟩
              · exact ⟨_, rfl,
                  Or.inr (Or.inr (Or.inr (Or.inr (Or.inr (Or.inr rfl)))))⟩
    · rcases el with _ | m
      · rcases searchR with e1 | sh
        · exact ⟨_, rfl, Or.inr (Or.inl ⟨e1, rfl⟩)⟩
        · rcases sh with _ | hit
          · exact ⟨_, rfl, Or.inr (Or.inr (Or.inl rfl))⟩
          · rcases claimsR with e2 | pc
            · exact ⟨_, rfl, Or.inr (Or.inr (Or.inr (Or.inl ⟨e2, rfl⟩)))⟩
            · rcases pc with _ | pc
              · exact ⟨_, rfl, Or.inr (Or.inr (Or.inr (Or.inr (Or.inl rfl))))⟩
              · rcases pc with ⟨popf, yearf⟩
                rcases popf with _ | p
                · exact ⟨_, rfl,
                    Or.inr (Or.inr (Or.inr (Or.inr (Or.inr (Or.inl rfl)))))⟩
                · exact ⟨_, rfl,
                    Or.inr (Or.inr (Or.inr (Or.inr (Or.inr (Or.inr rfl)))))⟩
      · exact ⟨_, rfl, Or.inl rfl⟩
  · rcases searchR with e1 | st
    · cases h
      exact ⟨_, rfl, Or.inl ⟨e1, rfl⟩⟩
    · rcases st with _ | title
      · cases h
        exact ⟨_, rfl, Or.inr (Or.inl rfl)⟩
      · rcases fetchR with e2 | pg
        · exact Except.noConfusion h
        · rcases pg with _ | page
          · cases h
            exact ⟨_, rfl, Or.inr (Or.inr (Or.inl rfl))⟩
          · rcases hpi : LitAgent.parse_infobox_for_literacy page.infobox with _ | info
            · simp only [LitAgent.get_literacy_for_place, hpi] at h
              rcases hb : LitAgent.parse_body_for_literacy page.paragraphs with _ | binfo
              · simp only [LitAgent.bodyStep, hb] at h
                cases h
                exact ⟨_, rfl, Or.inr (Or.inr (Or.inr (Or.inr (Or.inr rfl))))⟩
              · simp only [LitAgent.bodyStep, hb] at h
                rcases hbl : binfo.literacy with _ | pct <;> rw [hbl] at h
                · cases h
                  exact ⟨_, rfl, Or.inr (Or.inr (Or.inr (Or.inr (Or.inr rfl))))⟩
                · cases h
                  refine ⟨_, rfl, Or.inr (Or.inr (Or.inr (Or.inr (Or.inl ?_))))⟩
                  exact parse_body_source page.paragraphs binfo hb
            · simp only [LitAgent.get_literacy_for_place, hpi] at h
              rcases hil : info.literacy with _ | pct <;> rw [hil] at h
              · rcases hb : LitAgent.parse_body_for_literacy page.paragraphs with _ | binfo
                · simp only [LitAgent.bodyStep, hb] at h
                  cases h
                  exact ⟨_, rfl, Or.inr (Or.inr (Or.inr (Or.inr (Or.inr rfl))))⟩
                · simp only [LitAgent.bodyStep, hb] at h
                  rcases hbl : binfo.literacy with _ | pct <;> rw [hbl] at h
                  · cases h
                    exact ⟨_, rfl, Or.inr (Or.inr (Or.inr (Or.inr (Or.inr rfl))))⟩
                  · cases h
                    refine ⟨_, rfl, Or.inr (Or.inr (Or.inr (Or.inr (Or.inl ?_))))⟩
                    exact parse_body_source page.paragraphs binfo hb
              · cases h
                refine ⟨_, rfl, Or.inr (Or.inr (Or.inr (Or.inl ?_)))⟩
                exact parse_infobox_source page.infobox info hpi

/-- C4 witness: the amended statement evaluated on concrete network
outcomes. -/
theorem claim_C4_witness :
    (∃ s, (PopAgent.get_population_for_place "Chengalpattu" (Except.ok none)
        (Except.ok none) (Except.ok none)).notes = some s ∧
      (s = "election-site" ∨ (∃ e, s = "search-error: " ++ e) ∨
        s = "no-wikidata-entity-found" ∨ (∃ e, s = "claims-error: " ++ e) ∨
        s = "no-population-found" ∨ s = "population-parsing-failed" ∨ s = "wikidata")) ∧
    (∃ s, (LitAgent.LitRecord.mk "Chengalpattu" none none none
        (some "no-wikipedia-search-result")).notes = some s ∧
      ((∃ e, s = "search-error: " ++ e) ∨ s = "no-wikipedia-search-result" ∨
        s = "failed-fetch-page" ∨ s = "wikipedia-infobox" ∨
        s = "wikipedia-body" ∨ s = "no-literacy-found")) ∧
    LitAgent.get_literacy_for_place "Chengalpattu" (Except.ok (some "Chengalpattu"))
      (Except.error "boom") = Except.error "boom" :=
  ⟨claim_C4.1 "Chengalpattu" (Except.ok none) (Except.ok none) (Except.ok none),
   claim_C4.2.1 "Chengalpattu" (Except.ok none) (Except.ok none) _ rfl,
   claim_C4.2.2 "Chengalpattu" "Chengalpattu" "boom"⟩

namespace LitAgent

/-- Does the row have a header (a `th` cell) whose text mentions literacy? -/
def rowMentions (r : TRow) : Bool :=
  match r.th with
  | some t => mentionsLiteracy t
  | none => false

end LitAgent

lemma findPct_eq_none :
    ∀ l : List Char, (∀ i, i ≤ l.length → Str.matchPctAt (l.drop i) = none) →
      Str.findPct l = none := by
  intro l
  induction l with
  | nil => intro h; rfl
  | cons c rest ih =>
    intro h
    unfold Str.findPct
    have h0 : Str.matchPctAt (c :: rest) = none := h 0 (by omega)
    rw [h0]
    exact ih fun i hi => h (i + 1) (Nat.succ_le_succ hi)

lemma findLitRow_none :
    ∀ rows : List LitAgent.TRow, (∀ r ∈ rows, LitAgent.rowMentions r = false) →
      LitAgent.findLitRow rows = none := by
  intro rows
  induction rows with
  | nil => intro h; rfl
  | cons r rest ih =>
    intro h
    have hr : LitAgent.rowMentions r = false := h r (List.mem_cons_self r rest)
    have hrest := ih fun x hx => h x (List.mem_cons_of_mem r hx)
    rcases hth : r.th with _ | t <;> rcases htd : r.td with _ | d <;>
      simp only [LitAgent.findLitRow, hth, htd]
    · exact hrest
    · exact hrest
    · exact hrest
    · unfold LitAgent.rowMentions at hr
      rw [hth] at hr
      have hm : LitAgent.mentionsLiteracy t = false := hr
      rw [if_neg (by simp [hm])]
      exact hrest

lemma bestOverlapGo_none (pws : List String) :
    ∀ (l : List (String × ℤ)) (best : Option ℤ) (bs : ℕ),
      (∀ kv ∈ l, PopAgent.overlapScore pws (PopAgent.wordsOf kv.1) = 0) →
      PopAgent.bestOverlapGo pws l best bs = best := by
  intro l
  induction l with
  | nil => intro best bs _; rfl
  | cons kv rest ih =>
    intro best bs h
    have h0 : PopAgent.overlapScore pws (PopAgent.wordsOf kv.1) = 0 :=
      h kv (List.mem_cons_self kv rest)
    simp only [PopAgent.bestOverlapGo, h0]
    rw [if_neg (by omega : ¬(bs < 0 ∧ 0 < 0))]
    exact ih best bs fun x hx => h x (List.mem_cons_of_mem kv hx)

/-- C5: the extraction helpers of the scraping agents signal failure by
returning None: `extract_percentage` on a string with no substring matching
the percentage pattern, `parse_infobox_for_literacy` on a page with no
infobox or no infobox row whose header mentions literacy, and
`election_lookup` on an empty table or a place with no exact, substring, or
word-overlap match. -/
theorem claim_C5 :
    (∀ s : String, (∀ i, i ≤ s.data.length → Str.matchPctAt (s.data.drop i) = none) →
      LitAgent.extract_percentage s = none) ∧
    (∀ ib : Option (List LitAgent.TRow),
      (∀ r ∈ ib.getD [], LitAgent.rowMentions r = false) →
      LitAgent.parse_infobox_for_literacy ib = none) ∧
    (∀ (data : List (String × ℤ)) (place : String),
      (data = [] ∨
        ((∀ kv ∈ data, ¬(PopAgent.normalize_name place = kv.1 ∨
            Str.strContains kv.1 (PopAgent.normalize_name place) = true ∨
            Str.strContains (PopAgent.normalize_name place) kv.1 = true)) ∧
          (∀ kv ∈ data,
            PopAgent.overlapScore (PopAgent.wordsOf (PopAgent.normalize_name place))
              (PopAgent.wordsOf kv.1) = 0))) →
      PopAgent.election_lookup data place = none) := by
  refine ⟨fun s h => findPct_eq_none s.data h, fun ib h => ?_, fun data place h => ?_⟩
  · cases ib with
    | none => rfl
    | some rows => exact findLitRow_none rows h
  · rcases h with hnil | ⟨hpart, hov⟩
    · subst hnil
      rfl
    · simp only [PopAgent.election_lookup]
      split_ifs with hd
      · rfl
      · have h1 : data.find? (fun kv => kv.1 == PopAgent.normalize_name place) = none := by
          rw [List.find?_eq_none]
          intro kv hkv
          simp only [beq_iff_eq]
          exact fun e => hpart kv hkv (Or.inl e.symm)
        have h2 : data.find? (fun kv => PopAgent.normalize_name place == kv.1 ||
            Str.strContains kv.1 (PopAgent.normalize_name place) ||
            Str.strContains (PopAgent.normalize_name place) kv.1) = none := by
          rw [List.find?_eq_none]
          intro kv hkv
          simp only [Bool.or_eq_true, beq_iff_eq, not_or]
          have := hpart kv hkv
          push_neg at this
          exact ⟨⟨this.1, by simpa using this.2.1⟩, by simpa using this.2.2⟩
        rw [h1, h2, bestOverlapGo_none _ data none 0 hov]

/-- C5 witness: the three failure modes on concrete inputs. -/
theorem claim_C5_witness :
    LitAgent.extract_percentage "no percentage in this text" = none ∧
    LitAgent.parse_infobox_for_literacy
      (some [⟨some "Population", some "77 (2011)"⟩, ⟨none, some "x"⟩]) = none ∧
    PopAgent.election_lookup [("chennai city", 466)] "Avadi" = none :=
  ⟨claim_C5.1 "no percentage in this text" (by decide),
   claim_C5.2.1 (some [⟨some "Population", some "77 (2011)"⟩, ⟨none, some "x"⟩]) (by decide),
   claim_C5.2.2 [("chennai city", 466)] "Avadi" (by decide)⟩

lemma pickBest_year_state :
    ∀ (xs : List PopAgent.WClaim) (c : PopAgent.WClaim) (y : ℤ),
      ∃ c2 y2, PopAgent.pickBest xs (some c) (some y) = (some c2, some y2) ∧ y ≤ y2 ∧
        (∀ d ∈ xs, d.amount.isSome → ∀ z, d.year = some z → z ≤ y2) ∧
        ((c2 = c ∧ y2 = y) ∨ (c2 ∈ xs ∧ c2.amount.isSome ∧ c2.year = some y2)) := by
  intro xs
  induction xs with
  | nil =>
    intro c y
    exact ⟨c, y, rfl, le_refl y, by simp, Or.inl ⟨rfl, rfl⟩⟩
  | cons d rest ih =>
    intro c y
    cases hda : d.amount with
    | none =>
      obtain ⟨c2, y2, hpk, hy, hbound, hmem⟩ := ih c y
      refine ⟨c2, y2, ?_, hy, ?_, ?_⟩
      · simp only [PopAgent.pickBest, hda]
        exact hpk
      · intro x hx hamt w hw
        rcases List.mem_cons.mp hx with rfl | hx2
        · rw [hda] at hamt
          cases hamt
        · exact hbound x hx2 hamt w hw
      · rcases hmem with h0 | ⟨hm, ha, hy2⟩
        · exact Or.inl h0
        · exact Or.inr ⟨List.mem_cons_of_mem d hm, ha, hy2⟩
    | some a =>
      cases hdy : d.year with
      | some z =>
        by_cases hzy : y < z
        · obtain ⟨c2, y2, hpk, hy, hbound, hmem⟩ := ih d z
          refine ⟨c2, y2, ?_, by omega, ?_, ?_⟩
          · simp only [PopAgent.pickBest, hda, hdy]
            rw [if_pos hzy]
            exact hpk
          · intro x hx hamt w hw
            rcases List.mem_cons.mp hx with rfl | hx2
            · rw [hdy] at hw
              cases hw
              exact hy
            · exact hbound x hx2 hamt w hw
          · rcases hmem with ⟨h1, h2⟩ | ⟨hm, ha, hy2⟩
            · refine Or.inr ⟨?_, ?_, ?_⟩
              · rw [h1]
                exact List.mem_cons_self d rest
              · rw [h1]
                simp [hda]
              · rw [h1, h2]
                exact hdy
            · exact Or.inr ⟨List.mem_cons_of_mem d hm, ha, hy2⟩
        · obtain ⟨c2, y2, hpk, hy, hbound, hmem⟩ := ih c y
          refine ⟨c2, y2, ?_, hy, ?_, ?_⟩
          · simp only [PopAgent.pickBest, hda, hdy]
            rw [if_neg hzy]
            exact hpk
          · intro x hx hamt w hw
            rcases List.mem_cons.mp hx with rfl | hx2
            · rw [hdy] at hw
              cases hw
              omega
            · exact hbound x hx2 hamt w hw
          · rcases hmem with h0 | ⟨hm, ha, hy2⟩
            · exact Or.inl h0
            · exact Or.inr ⟨List.mem_cons_of_mem d hm, ha, hy2⟩
      | none =>
        obtain ⟨c2, y2, hpk, hy, hbound, hmem⟩ := ih c y
        refine ⟨c2, y2, ?_, hy, ?_, ?_⟩
        · simp only [PopAgent.pickBest, hda, hdy]
          exact hpk
        · intro x hx hamt w hw
          rcases List.mem_cons.mp hx with rfl | hx2
          · rw [hdy] at hw
            cases hw
          · exact hbound x hx2 hamt w hw
        · rcases hmem with h0 | ⟨hm, ha, hy2⟩
          · exact Or.inl h0
          · exact Or.inr ⟨List.mem_cons_of_mem d hm, ha, hy2⟩

lemma pickBest_yearless_state :
    ∀ (xs : List PopAgent.WClaim) (c : PopAgent.WClaim),
      (PopAgent.pickBest xs (some c) none = (some c, none) ∧
        ∀ d ∈ xs, d.amount.isSome → d.year = none) ∨
      (∃ c2 y2, PopAgent.pickBest xs (some c) none = (some c2, some y2) ∧
        c2 ∈ xs ∧ c2.amount.isSome ∧ c2.year = some y2 ∧
        ∀ d ∈ xs, d.amount.isSome → ∀ z, d.year = some z → z ≤ y2) := by
  intro xs
  induction xs with
  | nil =>
    intro c
    exact Or.inl ⟨rfl, by simp⟩
  | cons d rest ih =>
    intro c
    cases hda : d.amount with
    | none =>
      rcases ih c with ⟨hpk, hall⟩ | ⟨c2, y2, hpk, hm, ha, hy2, hbound⟩
      · refine Or.inl ⟨?_, ?_⟩
        · simp only [PopAgent.pickBest, hda]
          exact hpk
        · intro x hx hamt
          rcases List.mem_cons.mp hx with rfl | hx2
          · rw [hda] at hamt
            cases hamt
          · exact hall x hx2 hamt
      · refine Or.inr ⟨c2, y2, ?_, List.mem_cons_of_mem d hm, ha, hy2, ?_⟩
        · simp only [PopAgent.pickBest, hda]
          exact hpk
        · intro x hx hamt w hw
          rcases List.mem_cons.mp hx with rfl | hx2
          · rw [hda] at hamt
            cases hamt
          · exact hbound x hx2 hamt w hw
    | some a =>
      cases hdy : d.year with
      | some z =>
        obtain ⟨c2, y2, hpk, hy, hbound, hmem⟩ := pickBest_year_state rest d z
        refine Or.inr ⟨c2, y2, ?_, ?_, ?_, ?_, ?_⟩
        · simp only [PopAgent.pickBest, hda, hdy]
          exact hpk
        · rcases hmem with ⟨h1, _⟩ | ⟨hm, _, _⟩
          · rw [h1]
            exact List.mem_cons_self d rest
          · exact List.mem_cons_of_mem d hm
        · rcases hmem with ⟨h1, _⟩ | ⟨_, ha, _⟩
          · rw [h1]
            simp [hda]
          · exact ha
        · rcases hmem with ⟨h1, h2⟩ | ⟨_, _, hy2⟩
          · rw [h1, h2]
            exact hdy
          · exact hy2
        · intro x hx hamt w hw
          rcases List.mem_cons.mp hx with rfl | hx2
          · rw [hdy] at hw
            cases hw
            exact hy
          · exact hbound x hx2 hamt w hw
      | none =>
        rcases ih c with ⟨hpk, hall⟩ | ⟨c2, y2, hpk, hm, ha, hy2, hbound⟩
        · refine Or.inl ⟨?_, ?_⟩
          · simp only [PopAgent.pickBest, hda, hdy]
            exact hpk
          · intro x hx hamt
            rcases List.mem_cons.mp hx with rfl | hx2
            · exact hdy
            · exact hall x hx2 hamt
        · refine Or.inr ⟨c2, y2, ?_, List.mem_cons_of_mem d hm, ha, hy2, ?_⟩
          · simp only [PopAgent.pickBest, hda, hdy]
            exact hpk
          · intro x hx hamt w hw
            rcases List.mem_cons.mp hx with rfl | hx2
            · rw [hdy] at hw
              cases hw
            · exact hbound x hx2 hamt w hw

lemma pickBest_start_cases :
    ∀ xs : List PopAgent.WClaim,
      (PopAgent.pickBest xs none none = (none, none) ∧
        ∀ d ∈ xs, ¬ d.amount.isSome = true) ∨
      (∃ c2, PopAgent.pickBest xs none none = (some c2, none) ∧
        xs.find? (fun d => d.amount.isSome) = some c2 ∧
        ∀ d ∈ xs, d.amount.isSome → d.year = none) ∨
      (∃ c2 y2, PopAgent.pickBest xs none none = (some c2, some y2) ∧
        c2 ∈ xs ∧ c2.amount.isSome ∧ c2.year = some y2 ∧
        ∀ d ∈ xs, d.amount.isSome → ∀ z, d.year = some z → z ≤ y2) := by
  intro xs
  induction xs with
  | nil => exact Or.inl ⟨rfl, by simp⟩
  | cons d rest ih =>
    cases hda : d.amount with
    | none =>
      rcases ih with ⟨hpk, hall⟩ | ⟨c2, hpk, hfind, hall⟩ | ⟨c2, y2, hpk, hm, ha, hy2, hbound⟩
      · refine Or.inl ⟨?_, ?_⟩
        · simp only [PopAgent.pickBest, hda]
          exact hpk
        · intro x hx
          rcases List.mem_cons.mp hx with rfl | hx2
          · simp [hda]
          · exact hall x hx2
      · refine Or.inr (Or.inl ⟨c2, ?_, ?_, ?_⟩)
        · simp only [PopAgent.pickBest, hda]
          exact hpk
        · rw [List.find?_cons_of_neg _ (by simp [hda])]
          exact hfind
        · intro x hx hamt
          rcases List.mem_cons.mp hx with rfl | hx2
          · rw [hda] at hamt
            cases hamt
          · exact hall x hx2 hamt
      · refine Or.inr (Or.inr ⟨c2, y2, ?_, List.mem_cons_of_mem d hm, ha, hy2, ?_⟩)
        · simp only [PopAgent.pickBest, hda]
          exact hpk
        · intro x hx hamt w hw
          rcases List.mem_cons.mp hx with rfl | hx2
          · rw [hda] at hamt
            cases hamt
          · exact hbound x hx2 hamt w hw
    | some a =>
      cases hdy : d.year with
      | some z =>
        obtain ⟨c2, y2, hpk, hy, hbound, hmem⟩ := pickBest_year_state rest d z
        refine Or.inr (Or.inr ⟨c2, y2, ?_, ?_, ?_, ?_, ?_⟩)
        · simp only [PopAgent.pickBest, hda, hdy]
          exact hpk
        · rcases hmem with ⟨h1, _⟩ | ⟨hm, _, _⟩
          · rw [h1]
            exact List.mem_cons_self d rest
          · exact List.mem_cons_of_mem d hm
        · rcases hmem with ⟨h1, _⟩ | ⟨_, ha, _⟩
          · rw [h1]
            simp [hda]
          · exact ha
        · rcases hmem with ⟨h1, h2⟩ | ⟨_, _, hy2⟩
          · rw [h1, h2]
            exact hdy
          · exact hy2
        · intro x hx hamt w hw
          rcases List.mem_cons.mp hx with rfl | hx2
          · rw [hdy] at hw
            cases hw
            exact hy
          · exact hbound x hx2 hamt w hw
      | none =>
        rcases pickBest_yearless_state rest d with ⟨hpk, hall⟩ |
          ⟨c2, y2, hpk, hm, ha, hy2, hbound⟩
        · refine Or.inr (Or.inl ⟨d, ?_, ?_, ?_⟩)
          · simp only [PopAgent.pickBest, hda, hdy]
            exact hpk
          · exact List.find?_cons_of_pos _ (by simp [hda])
          · intro x hx hamt
            rcases List.mem_cons.mp hx with rfl | hx2
            · exact hdy
            · exact hall x hx2 hamt
        · refine Or.inr (Or.inr ⟨c2, y2, ?_, List.mem_cons_of_mem d hm, ha, hy2, ?_⟩)
          · simp only [PopAgent.pickBest, hda, hdy]
            exact hpk
          · intro x hx hamt w hw
            rcases List.mem_cons.mp hx with rfl | hx2
            · rw [hdy] at hw
              cases hw
            · exact hbound x hx2 hamt w hw

/-- C8 counterexample: the claim fails as stated. In the list below, the
first claim carries a parseable P585 year qualifier (2020) but no datavalue;
`get_population_from_claims` skips it before ever reading the qualifier, and
returns the yearless second claim (population 500, year None) instead of the
amount and year of a year-maximal year-bearing claim. -/
theorem claim_C8_counterexample :
    (([⟨none, some 2020⟩, ⟨some (some 500), none⟩] : List PopAgent.WClaim).any
        (fun c => c.year.isSome) = true) ∧
    PopAgent.get_population_from_claims
        [⟨none, some 2020⟩, ⟨some (some 500), none⟩] = some ⟨some 500, none⟩ ∧
    ∀ c ∈ ([⟨none, some 2020⟩, ⟨some (some 500), none⟩] : List PopAgent.WClaim),
      c.year.isSome = true →
      PopAgent.get_population_from_claims
          [⟨none, some 2020⟩, ⟨some (some 500), none⟩] ≠
        some ⟨c.amount.join, c.year⟩ := by decide

/-- C8 (amended): claims whose mainsnak has no datavalue are skipped before
their qualifiers are read. Among the claims with a datavalue: when at least
one carries a parseable P585 year, the function returns the amount and year
of a datavalue claim whose year is maximal (so a year-bearing datavalue
claim is preferred over any yearless one regardless of order); when none
does, it returns the amount of the first datavalue claim with year None, and
when there is no datavalue claim at all it returns None. -/
theorem claim_C8 (cs : List PopAgent.WClaim) :
    ((∃ c ∈ cs, c.amount.isSome ∧ c.year.isSome) →
      ∃ c ∈ cs, ∃ y, c.amount.isSome ∧ c.year = some y ∧
        (∀ d ∈ cs, d.amount.isSome → ∀ z, d.year = some z → z ≤ y) ∧
        PopAgent.get_population_from_claims cs = some ⟨c.amount.join, some y⟩) ∧
    ((∀ c ∈ cs, c.amount.isSome → c.year = none) →
      PopAgent.get_population_from_claims cs =
        (cs.find? (fun c => c.amount.isSome)).map
          (fun c => ⟨c.amount.join, none⟩)) := by
  constructor
  · rintro ⟨c0, hc0, hamt0, hyr0⟩
    have hne : cs.isEmpty = false := by
      cases cs with
      | nil => cases hc0
      | cons a l => rfl
    rcases pickBest_start_cases cs with ⟨hpk, hall⟩ | ⟨c2, hpk, hfind, hall⟩ |
      ⟨c2, y2, hpk, hm, ha, hy2, hbound⟩
    · exact absurd hamt0 (hall c0 hc0)
    · rw [hall c0 hc0 hamt0] at hyr0
      cases hyr0
    · refine ⟨c2, hm, y2, ha, hy2, hbound, ?_⟩
      unfold PopAgent.get_population_from_claims
      rw [if_neg (by simp [hne])]
      rw [hpk]
  · intro hall
    rcases pickBest_start_cases cs with ⟨hpk, hnone⟩ | ⟨c2, hpk, hfind, _⟩ |
      ⟨c2, y2, hpk, hm, ha, hy2, _⟩
    · have hfind : cs.find? (fun c => c.amount.isSome) = none :=
        List.find?_eq_none.mpr fun x hx => hnone x hx
      rw [hfind]
      unfold PopAgent.get_population_from_claims
      split_ifs with h
      · rfl
      · rw [hpk]
        rfl
    · rw [hfind]
      unfold PopAgent.get_population_from_claims
      split_ifs with h
      · cases cs with
        | nil => cases hfind
        | cons a l => cases h
      · rw [hpk]
        rfl
    · have := hall c2 hm ha
      rw [hy2] at this
      cases this

/-- C8 witness: the amended behaviour on a concrete claim list with mixed
year qualifiers. -/
theorem claim_C8_witness :
    ∃ c ∈ ([⟨some (some 100), some 2019⟩, ⟨some (some 200), some 2021⟩,
        ⟨some (some 300), none⟩] : List PopAgent.WClaim), ∃ y,
      c.amount.isSome ∧ c.year = some y ∧
      (∀ d ∈ ([⟨some (some 100), some 2019⟩, ⟨some (some 200), some 2021⟩,
          ⟨some (some 300), none⟩] : List PopAgent.WClaim),
        d.amount.isSome → ∀ z, d.year = some z → z ≤ y) ∧
      PopAgent.get_population_from_claims
          [⟨some (some 100), some 2019⟩, ⟨some (some 200), some 2021⟩,
            ⟨some (some 300), none⟩] = some ⟨c.amount.join, some y⟩ :=
  (claim_C8 [⟨some (some 100), some 2019⟩, ⟨some (some 200), some 2021⟩,
      ⟨some (some 300), none⟩]).1 (by decide)

lemma pop_results_eq_map (lookup : String → PopAgent.PopRecord) :
    ∀ ps : List String,
      PopAgent.pop_results lookup ps = ps.map (PopAgent.pop_result_of lookup) := by
  intro ps
  induction ps with
  | nil => rfl
  | cons p rest ih => simp [PopAgent.pop_results, ih]

lemma lit_results_eq_map (lookup : String → Except String LitAgent.LitRecord) :
    ∀ ps : List String,
      LitAgent.lit_results lookup ps = ps.map (LitAgent.lit_result_of lookup) := by
  intro ps
  induction ps with
  | nil => rfl
  | cons p rest ih => simp [LitAgent.lit_results, ih]

lemma zip_map_self_get {α β : Type} (f : α → β) :
    ∀ (l : List α) (i : ℕ),
      (l.zip (l.map f)).get? i = (l.get? i).map (fun a => (a, f a)) := by
  intro l
  induction l with
  | nil => intro i; cases i <;> rfl
  | cons a rest ih =>
    intro i
    cases i with
    | zero => rfl
    | succ j => exact ih j

/-- C9: `process_excel` (both agents) checks that the sheet has a column,
then writes one output row per input row, in input order, pairing the
unchanged original cells with the appended result record; a row whose
first-column text is empty or whitespace gets the `empty-input` placeholder
(notes `empty-input`, values None) without invoking the lookup. -/
theorem claim_C9 :
    (∀ (lookup : String → PopAgent.PopRecord) (df : Sheets.XSheet)
        (out : List (List String × PopAgent.PopRecord)),
      1 ≤ df.header.length →
      PopAgent.process_excel lookup df = Except.ok out →
      out.length = df.rows.length ∧
      ∀ (i : ℕ) (row : List String), df.rows.get? i = some row →
        out.get? i = some (row, PopAgent.pop_result_of lookup (Sheets.firstCell row))) ∧
    (∀ place : String, Sheets.isBlankStr place = true →
      (∀ lookup2 : String → PopAgent.PopRecord,
        PopAgent.pop_result_of lookup2 place = PopAgent.pop_empty_record place) ∧
      (PopAgent.pop_empty_record place).notes = some "empty-input" ∧
      (PopAgent.pop_empty_record place).population = none ∧
      (PopAgent.pop_empty_record place).population_year = none) ∧
    (∀ (lookup : String → Except String LitAgent.LitRecord) (df : Sheets.XSheet)
        (out : List (List String × LitAgent.LitRecord)),
      1 ≤ df.header.length →
      LitAgent.process_excel lookup df = Except.ok out →
      out.length = df.rows.length ∧
      ∀ (i : ℕ) (row : List String), df.rows.get? i = some row →
        out.get? i = some (row, LitAgent.lit_result_of lookup (Sheets.firstCell row))) ∧
    (∀ place : String, Sheets.isBlankStr place = true →
      (∀ lookup2 : String → Except String LitAgent.LitRecord,
        LitAgent.lit_result_of lookup2 place = LitAgent.lit_empty_record place) ∧
      (LitAgent.lit_empty_record place).notes = some "empty-input" ∧
      (LitAgent.lit_empty_record place).literacy = none ∧
      (LitAgent.lit_empty_record place).literacy_year = none) := by
  refine ⟨fun lookup df out hcols hout => ?_, fun place hb => ?_,
    fun lookup df out hcols hout => ?_, fun place hb => ?_⟩
  · unfold PopAgent.process_excel at hout
    rw [if_neg (by omega)] at hout
    cases hout
    rw [pop_results_eq_map, List.map_map]
    constructor
    · simp
    · intro i row hrow
      rw [zip_map_self_get, hrow]
      rfl
  · refine ⟨fun lookup2 => ?_, rfl, rfl, rfl⟩
    unfold PopAgent.pop_result_of
    rw [if_pos hb]
  · unfold LitAgent.process_excel at hout
    rw [if_neg (by omega)] at hout
    cases hout
    rw [lit_results_eq_map, List.map_map]
    constructor
    · simp
    · intro i row hrow
      rw [zip_map_self_get, hrow]
      rfl
  · refine ⟨fun lookup2 => ?_, rfl, rfl, rfl⟩
    unfold LitAgent.lit_result_of
    rw [if_pos hb]

/-- C9 witness: a two-row sheet (one real place, one blank cell) processed
by both agents with concrete lookups. -/
theorem claim_C9_witness :
    ([(["Chennai"], PopAgent.pop_empty_record "Chennai"),
        ([" "], PopAgent.pop_empty_record " ")] : List (List String × PopAgent.PopRecord)).length =
      ([["Chennai"], [" "]] : List (List String)).length ∧
    ([(["Chennai"], PopAgent.pop_empty_record "Chennai"),
        ([" "], PopAgent.pop_empty_record " ")] : List (List String × PopAgent.PopRecord)).get? 1 =
      some ([" "], PopAgent.pop_result_of (fun p => PopAgent.pop_empty_record p)
        (Sheets.firstCell [" "])) ∧
    PopAgent.pop_result_of (fun p => PopAgent.pop_empty_record p) " " =
      PopAgent.pop_empty_record " " ∧
    ([(["Chennai"], LitAgent.lit_error_record "Chennai" "x"),
        ([" "], LitAgent.lit_empty_record " ")] : List (List String × LitAgent.LitRecord)).get? 0 =
      some (["Chennai"], LitAgent.lit_result_of (fun _ => Except.error "x")
        (Sheets.firstCell ["Chennai"])) :=
  have hpop := claim_C9.1 (fun p => PopAgent.pop_empty_record p)
    ⟨["Place"], [["Chennai"], [" "]]⟩
    [(["Chennai"], PopAgent.pop_empty_record "Chennai"),
      ([" "], PopAgent.pop_empty_record " ")] (by decide) rfl
  have hlit := claim_C9.2.2.1 (fun _ => Except.error "x")
    ⟨["Place"], [["Chennai"], [" "]]⟩
    [(["Chennai"], LitAgent.lit_error_record "Chennai" "x"),
      ([" "], LitAgent.lit_empty_record " ")] (by decide) rfl
  ⟨hpop.1, hpop.2 1 [" "] rfl, (claim_C9.2.1 " " (by decide)).1 _, hlit.2 0 ["Chennai"] rfl⟩

lemma election_lookup_year (data : List (String × ℤ)) (place : String)
    (m : PopAgent.ElectMatch) (h : PopAgent.election_lookup data place = some m) :
    m.year = 2025 := by
  simp only [PopAgent.election_lookup] at h
  by_cases hd : data.isEmpty = true
  · rw [if_pos hd] at h
    cases h
  · rw [if_neg hd] at h
    rcases h1 : data.find? (fun kv => kv.1 == PopAgent.normalize_name place) with _ | kv
    · rw [h1] at h
      rcases h2 : data.find? (fun kv => PopAgent.normalize_name place == kv.1 ||
          Str.strContains kv.1 (PopAgent.normalize_name place) ||
          Str.strContains (PopAgent.normalize_name place) kv.1) with _ | kv2
      · rw [h2] at h
        rcases h3 : PopAgent.bestOverlapGo
            (PopAgent.wordsOf (PopAgent.normalize_name place)) data none 0 with _ | pop
        · rw [h3] at h
          cases h
        · rw [h3] at h
          cases h
          rfl
      · rw [h2] at h
        cases h
        rfl
    · rw [h1] at h
      cases h
      rfl

/-- C10: source precedence in both agents. Whenever `election_lookup`
matches, `get_population_for_place` returns the election-site value (notes
`election-site`, year 2025) and the Wikidata results are irrelevant;
whenever the infobox parse yields a percentage, `get_literacy_for_place`
returns it (notes `wikipedia-infobox`) and the page body is irrelevant. -/
theorem claim_C10 :
    (∀ (data : List (String × ℤ)) (place : String) (m : PopAgent.ElectMatch)
        (searchR : Except String (Option PopAgent.SearchHit))
        (claimsR : Except String (Option PopAgent.PopClaims)),
      PopAgent.election_lookup data place = some m →
      PopAgent.get_population_for_place place
          (Except.ok (PopAgent.election_lookup data place)) searchR claimsR =
        { input_name := place, wikidata_id := none, wikidata_label := none,
          population := some m.population, population_year := some 2025,
          notes := some "election-site" }) ∧
    (∀ (place title : String) (ib : Option (List LitAgent.TRow)) (paras : List String)
        (i : LitAgent.LitInfo) (pct : ℚ),
      LitAgent.parse_infobox_for_literacy ib = some i →
      i.literacy = some pct →
      LitAgent.get_literacy_for_place place (Except.ok (some title))
          (Except.ok (some ⟨ib, paras⟩)) =
        Except.ok ⟨place, some title, some pct, i.year, some "wikipedia-infobox"⟩) := by
  constructor
  · intro data place m searchR claimsR h
    have hy := election_lookup_year data place m h
    rw [h]
    simp only [PopAgent.get_population_for_place]
    rw [hy]
  · intro place title ib paras i pct hpi hil
    simp only [LitAgent.get_literacy_for_place, hpi, hil,
      parse_infobox_source ib i hpi]

/-- C10 witness: the precedence evaluated on a concrete election table and a
concrete infobox. -/
theorem claim_C10_witness :
    PopAgent.get_population_for_place "Avadi"
        (Except.ok (PopAgent.election_lookup [("avadi", 464)] "Avadi"))
        (Except.ok none) (Except.ok none) =
      { input_name := "Avadi", wikidata_id := none, wikidata_label := none,
        population := some 464, population_year := some 2025,
        notes := some "election-site" } ∧
    LitAgent.get_literacy_for_place "Avadi" (Except.ok (some "Avadi"))
        (Except.ok (some ⟨some [⟨some "Literacy", some "7%"⟩], []⟩)) =
      Except.ok ⟨"Avadi", some "Avadi", some ((7 : ℕ) : ℚ), none,
        some "wikipedia-infobox"⟩ :=
  ⟨claim_C10.1 [("avadi", 464)] "Avadi" ⟨464, 2025⟩ (Except.ok none) (Except.ok none)
      (by decide),
   claim_C10.2 "Avadi" "Avadi" (some [⟨some "Literacy", some "7%"⟩]) []
      ⟨LitAgent.extract_percentage "7%", Str.findYearParen "7%".data,
        "wikipedia-infobox", "7%"⟩ ((7 : ℕ) : ℚ) rfl rfl⟩
